import Mathlib

/-!
# inst_conductor — instrument protocol and state-synchronization engine

A shallow embedding, in Lean 4, of the wire-facing core of the
`inst_conductor` instrument-control suite: the transport line discipline
(`conductor/device/device.py`), the SDL1000 electronic-load parameter state
synchronizer (`device/siglent_sdl1000.py`), the SDM3000 multimeter
synchronizer and conversion tables (`conductor/device/siglent_sdm3000.py`),
and the SPD3303 power-supply write-back (`device/siglent_spd3303.py`).

Modelling conventions:
* Python dicts become association lists with first-match lookup and
  in-place `set`; dict keys are unique by construction in the source.
* Machine/floating point numbers are modelled as rationals (`ℚ`); decimal
  renderings such as `'%.6f' % x` are kept symbolic (`FmtData.ffloat x`)
  since no claim depends on the digit strings.
* Wire I/O is a function from command strings to `Except`-wrapped
  responses; an `.error` models the transport raising an exception
  (`ContactLostError` / `ConnectionLost`, ...).
* `float(s)` / `int(float(s))` are modelled on plain decimal literals
  (optional sign, digits, optional fraction); exponent forms, `inf`/`nan`
  and surrounding whitespace are not produced by the modelled instruments.
-/

namespace InstConductor

/-- The Python exceptions that can propagate out of the modelled code:
the transport taxonomy of `device.py` plus built-in exception kinds. -/
inductive PyErr where
  | notConnected
  | instrumentClosed
  | contactLost
  | connectionLost
  | valueError
  | typeError
  | keyError
  | attributeError
  | assertionError
  deriving DecidableEq, Repr

/-- A Python value as stored in a `_param_state` dict: bool, int, float or
(upper-cased) string.  The constructor order mirrors the `isinstance`
dispatch order in `_update_one_param_on_inst`. -/
inductive PyVal where
  | b (v : Bool)
  | i (v : Int)
  | f (v : ℚ)
  | s (v : String)
  deriving DecidableEq, Repr

/-- The argument part of a wire write `f'{key} {fmt_data}'` as produced by
`_update_one_param_on_inst`: either a literal string, a `'%.6f'`-rendered
float (kept symbolic), or an integer. -/
inductive FmtData where
  | fstr (v : String)
  | ffloat (v : ℚ)
  | fint (v : Int)
  deriving DecidableEq, Repr

/-- One wire interaction, as observed on the transport. -/
inductive Ev where
  | query (cmd : String)
  | write (cmd : String) (val : FmtData)
  | raw (line : String)
  | writeIdx (cmd : String) (idx : Nat) (val : ℚ)
  deriving DecidableEq, Repr

/-- First-match lookup in an association list (Python `d[k]` / `d.get(k)`). -/
def alookup {α : Type} (k : String) : List (String × α) → Option α
  | [] => none
  | (k', v) :: t => if k' = k then some v else alookup k t

/-- Dict assignment `d[k] = v`: replace the existing binding or append. -/
def aset {α : Type} (k : String) (v : α) : List (String × α) → List (String × α)
  | [] => [(k, v)]
  | (k', v') :: t => if k' = k then (k, v) :: t else (k', v') :: aset k v t

/-- Value of a nonempty all-digit character list, else `none`. -/
def digitsVal (cs : List Char) : Option Nat :=
  if cs.isEmpty then none
  else cs.foldl
    (fun acc c =>
      match acc with
      | none => none
      | some n => if c.isDigit then some (n * 10 + (c.toNat - '0'.toNat)) else none)
    (some 0)

/-- Split a character list at every `'.'` (the semantics of
`str.split('.')`): `"1.5" ↦ ["1","5"]`, `"" ↦ [""]`, `"." ↦ ["",""]`. -/
def splitDot : List Char → List (List Char)
  | [] => [[]]
  | c :: t =>
    if c = '.' then [] :: splitDot t
    else
      match splitDot t with
      | h :: r => (c :: h) :: r
      | [] => [[c]]

/-- Python `float(s)` on plain decimal literals: optional leading minus,
integer part, optional `.` fraction part. -/
def pyFloat (s : String) : Option ℚ :=
  let p : Bool × List Char :=
    match s.data with
    | '-' :: t => (true, t)
    | cs => (false, cs)
  let core : Option ℚ :=
    match splitDot p.2 with
    | [a] => (digitsVal a).map (fun n => (n : ℚ))
    | [a, b] =>
        if a.isEmpty && b.isEmpty then none
        else
          let ip : Option Nat := if a.isEmpty then some 0 else digitsVal a
          let fp : Option Nat := if b.isEmpty then some 0 else digitsVal b
          match ip, fp with
          | some ipart, some fpart =>
              some ((ipart : ℚ) + (fpart : ℚ) / ((10 : ℚ) ^ b.length))
          | _, _ => none
    | _ => none
  core.map (fun q => if p.1 then -q else q)

/-- Python `int(x)` on a float: truncation toward zero (on a normalized
rational, the T-division of numerator by denominator). -/
def pyTrunc (q : ℚ) : Int :=
  Int.tdiv q.num (q.den : Int)

/-- Python `val != 0` on a stored parameter value (`True != 0` is `True`;
a `str` compared to `0` is always unequal). -/
def pyNeZeroB : PyVal → Bool
  | .b v => v
  | .i n => n != 0
  | .f q => q != 0
  | .s _ => true

/-- The value is the numeric zero sentinel (`0` or `0.0`). -/
def pyIsZero : PyVal → Prop
  | .i n => n = 0
  | .f q => q = 0
  | _ => False

instance : DecidablePred pyIsZero := by
  intro v
  cases v <;> simp [pyIsZero] <;> infer_instance

/-- Python `s.upper()` (ASCII range; the modelled command vocabulary is
ASCII apart from symbols that upper-case to themselves). -/
def pyUpper (s : String) : String :=
  ⟨s.data.map (fun c => if 'a' ≤ c ∧ c ≤ 'z' then Char.ofNat (c.toNat - 32) else c)⟩

/-- Python `s.strip(chars)`: drop the given characters from both ends. -/
def pyStrip (cs : List Char) (s : String) : String :=
  ⟨((s.toList.dropWhile (fun c => c ∈ cs)).reverse.dropWhile (fun c => c ∈ cs)).reverse⟩

/-! ## Single-parameter wire write (claim C10)

`InstrumentSiglentSDL1000ConfigureWidget._update_one_param_on_inst`
(`device/siglent_sdl1000.py`) formats the value before writing
`f'{key} {fmt_data}'`.  Its boolean branch is literally
`fmt_data = '1' if True else '0'` — the condition is the constant `True`,
not `data`.  The async SDM3000 variant
(`conductor/device/siglent_sdm3000.py`) has `'1' if data else '0'`. -/

/-- Formatting in the SDL1000 `_update_one_param_on_inst`. -/
def sdlFormatData : PyVal → FmtData
  | .b _ => .fstr (if true then "1" else "0")
  | .f q => .ffloat q
  | .i n => .fint n
  | .s s => .fstr (pyUpper s)

/-- Formatting in the SDM3000 `_update_one_param_on_inst`. -/
def sdmFormatData : PyVal → FmtData
  | .b v => .fstr (if v then "1" else "0")
  | .f q => .ffloat q
  | .i n => .fint n
  | .s s => .fstr (pyUpper s)

/-- The wire event `self._inst.write(f'{key} {fmt_data}')` (SDL1000). -/
def sdlUpdateOneParamEv (key : String) (data : PyVal) : Ev :=
  .write key (sdlFormatData data)

/-- The wire event `await self._inst.write(f'{key} {fmt_data}')` (SDM3000). -/
def sdmUpdateOneParamEv (key : String) (data : PyVal) : Ev :=
  .write key (sdmFormatData data)

/-! ## Transport `read()` (claim C8)

The conductor `Device` class (`conductor/device/device.py`).  `read()`
executes `ret = await self._read_no_lock()`; Python resolves the name
`_read_no_lock` against the instance and class attributes at call time. -/

/-- The method and property names defined on the conductor `Device` class
body (`conductor/device/device.py`). -/
def conductorDeviceMethods : List String :=
  ["idn_mapping", "supported_instruments", "connect", "init_names",
   "disconnect", "query", "read_no_lock", "read", "read_raw",
   "write_no_lock", "write", "write_raw", "_read_write",
   "_validator_1", "_validator_8", "_validator_16",
   "connected", "manufacturer", "model", "serial_number",
   "firmware_version", "hardware_version", "name", "long_name",
   "resource_name", "set_debug", "set_logger"]

/-- Connection flags of a `Device` relevant to `read`. -/
structure DevState where
  connected : Bool
  readyToClose : Bool
  isFake : Bool
  deriving DecidableEq, Repr

/-- `Device.read_no_lock`: guard checks, then one line from the stream with
`.strip(' \t\r\n')`; a stream-level I/O error raises `ConnectionLost`. -/
def conductorReadNoLock (d : DevState) (stream : Except PyErr String) :
    Except PyErr String :=
  if ¬d.connected then .error .notConnected
  else if d.readyToClose then .error .instrumentClosed
  else if d.isFake then .ok "READ_RESULT"
  else
    match stream with
    | .error _ => .error .connectionLost
    | .ok line =>
        if d.readyToClose then .error .instrumentClosed
        else .ok (pyStrip [' ', '\t', '\r', '\n'] line)

/-- `Device.read`: under the I/O lock, `ret = await self._read_no_lock()`.
The attribute `_read_no_lock` is resolved against the class body; the
class defines `read_no_lock`, so the lookup is modelled explicitly. -/
def conductorDeviceRead (d : DevState) (stream : Except PyErr String) :
    Except PyErr String :=
  if "_read_no_lock" ∈ conductorDeviceMethods then conductorReadNoLock d stream
  else .error .attributeError

/-! ## The SDL1000 mode/parameter descriptor table

`_SDL_MODE_PARAMS` in `device/siglent_sdl1000.py`.  Each mode carries the
dict key split into overall/constant mode (as used by `_put_inst_in_mode`),
the wire `mode_name`, and the parameter specs.  Of each spec we keep the
SCPI command fragment, the associated boolean-flag command (for tuple
specs), the value-type letter (the last character of the type string, as
read by `refresh`), and whether `update_instrument` writes it (the third
tuple element is the literal `False` only for some General entries). -/

structure SDLParam where
  cmd : String
  flag : Option String
  ptype : Char
  writable : Bool
  deriving DecidableEq, Repr

/-- An ordinary parameter spec (written by `update_instrument`). -/
def P (cmd : String) (ty : Char) : SDLParam := ⟨cmd, none, ty, true⟩

/-- A parameter spec with an associated boolean "active" flag command. -/
def PF (cmd : String) (flag : String) (ty : Char) : SDLParam :=
  ⟨cmd, some flag, ty, true⟩

/-- A General parameter spec whose third element is the literal `False`
(read by `refresh` but skipped by `update_instrument`). -/
def PN (cmd : String) (ty : Char) : SDLParam := ⟨cmd, none, ty, false⟩

structure SDLMode where
  overall : String
  constM : Option String
  modeName : Option String
  params : List SDLParam
  deriving DecidableEq, Repr

/-- `_SDL_MODE_PARAMS`, in dict order. -/
def sdlModes : List SDLMode :=
  [⟨"General", none, none,
    [PN ":SYST:REMOTE:STATE" 'b', PN ":INPUT:STATE" 'b', PN ":SHORT:STATE" 'b',
     PN ":FUNCTION" 'r', PN ":FUNCTION:TRANSIENT" 'r', PN ":FUNCTION:MODE" 's',
     P ":BATTERY:MODE" 's', P ":LIST:MODE" 's', P ":TRIGGER:SOURCE" 's',
     P ":SENSE:AVERAGE:COUNT" 'd', P ":SYSTEM:SENSE:STATE" 'b',
     P ":SYSTEM:IMONITOR:STATE" 'b', P ":SYSTEM:VMONITOR:STATE" 'b',
     P ":EXT:INPUT:STATE" 'b', P ":EXT:MODE" 's', P ":TIME:TEST:STATE" 'b',
     P ":VOLTAGE:LEVEL:ON" 'f', P ":VOLTAGE:LATCH:STATE" 'b',
     PF ":CURRENT:PROTECTION:LEVEL" ":CURRENT:PROTECTION:STATE" 'f',
     P ":CURRENT:PROTECTION:DELAY" 'f',
     PF ":POWER:PROTECTION:LEVEL" ":POWER:PROTECTION:STATE" 'f',
     P ":POWER:PROTECTION:DELAY" 'f']⟩,
   ⟨"Basic", some "Voltage", some "VOLTAGE",
    [P "IRANGE" 'r', P "VRANGE" 'r', P "LEVEL:IMMEDIATE" 'f',
     P ":TIME:TEST:VOLTAGE:LOW" 'f', P ":TIME:TEST:VOLTAGE:HIGH" 'f']⟩,
   ⟨"Basic", some "Current", some "CURRENT",
    [P "IRANGE" 'r', P "VRANGE" 'r', P "LEVEL:IMMEDIATE" 'f',
     P ":TIME:TEST:VOLTAGE:LOW" 'f', P ":TIME:TEST:VOLTAGE:HIGH" 'f',
     P "SLEW:POSITIVE" 'f', P "SLEW:NEGATIVE" 'f']⟩,
   ⟨"Basic", some "Power", some "POWER",
    [P "IRANGE" 'r', P "VRANGE" 'r', P "LEVEL:IMMEDIATE" 'f',
     P ":TIME:TEST:VOLTAGE:LOW" 'f', P ":TIME:TEST:VOLTAGE:HIGH" 'f']⟩,
   ⟨"Basic", some "Resistance", some "RESISTANCE",
    [P "IRANGE" 'r', P "VRANGE" 'r', P "LEVEL:IMMEDIATE" 'f',
     P ":TIME:TEST:VOLTAGE:LOW" 'f', P ":TIME:TEST:VOLTAGE:HIGH" 'f']⟩,
   ⟨"LED", none, some "LED",
    [P "IRANGE" 'r', P "VRANGE" 'r', P "VOLTAGE" 'f', P "CURRENT" 'f',
     P "RCONF" 'f']⟩,
   ⟨"Battery", some "Current", some "BATTERY",
    [P "IRANGE" 'r', P "VRANGE" 'r', P "LEVEL" 'f',
     PF "VOLTAGE" "VOLTAGE:STATE" 'f', PF "CAP" "CAP:STATE" 'd',
     PF "TIMER" "TIMER:STATE" 'd']⟩,
   ⟨"Battery", some "Power", some "BATTERY",
    [P "IRANGE" 'r', P "VRANGE" 'r', P "LEVEL" 'f',
     PF "VOLTAGE" "VOLTAGE:STATE" 'f', PF "CAP" "CAP:STATE" 'd',
     PF "TIMER" "TIMER:STATE" 'd']⟩,
   ⟨"Battery", some "Resistance", some "BATTERY",
    [P "IRANGE" 'r', P "VRANGE" 'r', P "LEVEL" 'f',
     PF "VOLTAGE" "VOLTAGE:STATE" 'f', PF "CAP" "CAP:STATE" 'd',
     PF "TIMER" "TIMER:STATE" 'd']⟩,
   ⟨"Dynamic", some "Voltage", some "VOLTAGE",
    [P "TRANSIENT:IRANGE" 'r', P "TRANSIENT:VRANGE" 'r', P "TRANSIENT:MODE" 'r',
     P "TRANSIENT:ALEVEL" 'f', P "TRANSIENT:BLEVEL" 'f',
     P "TRANSIENT:AWIDTH" 'f', P "TRANSIENT:BWIDTH" 'f']⟩,
   ⟨"Dynamic", some "Voltage", some "VOLTAGE",
    [P "TRANSIENT:IRANGE" 'r', P "TRANSIENT:VRANGE" 'r', P "TRANSIENT:MODE" 'r',
     P "TRANSIENT:ALEVEL" 'f', P "TRANSIENT:BLEVEL" 'f',
     P "TRANSIENT:BWIDTH" 'f']⟩,
   ⟨"Dynamic", some "Voltage", some "VOLTAGE",
    [P "TRANSIENT:IRANGE" 'r', P "TRANSIENT:VRANGE" 'r', P "TRANSIENT:MODE" 'r',
     P "TRANSIENT:ALEVEL" 'f', P "TRANSIENT:BLEVEL" 'f']⟩,
   ⟨"Dynamic", some "Current", some "CURRENT",
    [P "TRANSIENT:IRANGE" 'r', P "TRANSIENT:VRANGE" 'r', P "TRANSIENT:MODE" 'r',
     P "TRANSIENT:ALEVEL" 'f', P "TRANSIENT:BLEVEL" 'f',
     P "TRANSIENT:AWIDTH" 'f', P "TRANSIENT:BWIDTH" 'f',
     P "TRANSIENT:SLEW:POSITIVE" 'f', P "TRANSIENT:SLEW:NEGATIVE" 'f']⟩,
   ⟨"Dynamic", some "Current", some "CURRENT",
    [P "TRANSIENT:IRANGE" 'r', P "TRANSIENT:VRANGE" 'r', P "TRANSIENT:MODE" 'r',
     P "TRANSIENT:ALEVEL" 'f', P "TRANSIENT:BLEVEL" 'f', P "TRANSIENT:BWIDTH" 'f',
     P "TRANSIENT:SLEW:POSITIVE" 'f', P "TRANSIENT:SLEW:NEGATIVE" 'f']⟩,
   ⟨"Dynamic", some "Current", some "CURRENT",
    [P "TRANSIENT:IRANGE" 'r', P "TRANSIENT:VRANGE" 'r', P "TRANSIENT:MODE" 'r',
     P "TRANSIENT:ALEVEL" 'f', P "TRANSIENT:BLEVEL" 'f',
     P "TRANSIENT:SLEW:POSITIVE" 'f', P "TRANSIENT:SLEW:NEGATIVE" 'f']⟩,
   ⟨"Dynamic", some "Power", some "POWER",
    [P "TRANSIENT:IRANGE" 'r', P "TRANSIENT:VRANGE" 'r', P "TRANSIENT:MODE" 'r',
     P "TRANSIENT:ALEVEL" 'f', P "TRANSIENT:BLEVEL" 'f',
     P "TRANSIENT:AWIDTH" 'f', P "TRANSIENT:BWIDTH" 'f']⟩,
   ⟨"Dynamic", some "Power", some "POWER",
    [P "TRANSIENT:IRANGE" 'r', P "TRANSIENT:VRANGE" 'r', P "TRANSIENT:MODE" 'r',
     P "TRANSIENT:ALEVEL" 'f', P "TRANSIENT:BLEVEL" 'f', P "TRANSIENT:BWIDTH" 'f']⟩,
   ⟨"Dynamic", some "Power", some "POWER",
    [P "TRANSIENT:IRANGE" 'r', P "TRANSIENT:VRANGE" 'r', P "TRANSIENT:MODE" 'r',
     P "TRANSIENT:ALEVEL" 'f', P "TRANSIENT:BLEVEL" 'f']⟩,
   ⟨"Dynamic", some "Resistance", some "RESISTANCE",
    [P "TRANSIENT:IRANGE" 'r', P "TRANSIENT:VRANGE" 'r', P "TRANSIENT:MODE" 'r',
     P "TRANSIENT:ALEVEL" 'f', P "TRANSIENT:BLEVEL" 'f',
     P "TRANSIENT:AWIDTH" 'f', P "TRANSIENT:BWIDTH" 'f']⟩,
   ⟨"Dynamic", some "Resistance", some "RESISTANCE",
    [P "TRANSIENT:IRANGE" 'r', P "TRANSIENT:VRANGE" 'r', P "TRANSIENT:MODE" 'r',
     P "TRANSIENT:ALEVEL" 'f', P "TRANSIENT:BLEVEL" 'f', P "TRANSIENT:BWIDTH" 'f']⟩,
   ⟨"Dynamic", some "Resistance", some "RESISTANCE",
    [P "TRANSIENT:IRANGE" 'r', P "TRANSIENT:VRANGE" 'r', P "TRANSIENT:MODE" 'r',
     P "TRANSIENT:ALEVEL" 'f', P "TRANSIENT:BLEVEL" 'f']⟩,
   ⟨"OCPT", none, some "OCP",
    [P "IRANGE" 'r', P "VRANGE" 'r', P "VOLTAGE" 'f', P "START" 'f', P "END" 'f',
     P "STEP" 'f', P "STEP:DELAY" 'f', P "MIN" 'f', P "MAX" 'f']⟩,
   ⟨"OPPT", none, some "OPP",
    [P "IRANGE" 'r', P "VRANGE" 'r', P "VOLTAGE" 'f', P "START" 'f', P "END" 'f',
     P "STEP" 'f', P "STEP:DELAY" 'f', P "MIN" 'f', P "MAX" 'f']⟩,
   ⟨"Ext ⚠", some "Voltage", some "EXT",
    [P "IRANGE" 'r', P "VRANGE" 'r']⟩,
   ⟨"Ext ⚠", some "Current", some "EXT",
    [P "IRANGE" 'r', P "VRANGE" 'r']⟩,
   ⟨"List", some "Voltage", some "LIST",
    [P "IRANGE" 'r', P "VRANGE" 'r', P "STEP" 'd', P "COUNT" 'd']⟩,
   ⟨"List", some "Current", some "LIST",
    [P "IRANGE" 'r', P "VRANGE" 'r', P "STEP" 'd', P "COUNT" 'd']⟩,
   ⟨"List", some "Power", some "LIST",
    [P "IRANGE" 'r', P "VRANGE" 'r', P "STEP" 'd', P "COUNT" 'd']⟩,
   ⟨"List", some "Resistance", some "LIST",
    [P "IRANGE" 'r', P "VRANGE" 'r', P "STEP" 'd', P "COUNT" 'd']⟩,
   ⟨"Program", none, some "LIST", []⟩]

/-- Python `s[0] == ':'` (no table command is the empty string, on which
the source indexing would raise `IndexError`). -/
def headIsColon (s : String) : Bool :=
  match s.data with
  | [] => false
  | c :: _ => c = ':'

/-- `_scpi_cmds_from_param_info`: prefix the command (and its flag command)
with `:{mode_name}:` unless the mode is General or the command already
starts with a colon (`ps1[0] == ':'`). -/
def scpiCmds (modeName : Option String) (p : SDLParam) : String × Option String :=
  let pfx : String :=
    match modeName with
    | none => ""
    | some m => if headIsColon p.cmd then "" else ":" ++ m ++ ":"
  (pfx ++ p.cmd, p.flag.map (fun fl => pfx ++ fl))

/-- `_put_inst_in_mode`: the dedicated wire command line(s) that place the
SDL in a given overall (and constant) mode.  A `"<AssertionError>"` line
marks the `assert False` branches, unreachable from `sdlModes`. -/
def putInstInMode (overallMode : String) (constMode : Option String) :
    List String :=
  let o := overallMode.toUpper
  let c := constMode.map String.toUpper
  if o = "DYNAMIC" then [":FUNCTION:TRANSIENT " ++ c.getD "<None>"]
  else if o = "BASIC" then [":FUNCTION " ++ c.getD "<None>"]
  else if o = "LED" then [":FUNCTION LED"]
  else if o = "BATTERY" then [":FUNCTION BATTERY", ":BATTERY:MODE " ++ c.getD "<None>"]
  else if o = "OCPT" then [":OCP:FUNC"]
  else if o = "OPPT" then [":OPP:FUNC"]
  else if o = "EXT ⚠" then
    if c = some "VOLTAGE" then [":EXT:MODE EXTV"]
    else if c = some "CURRENT" then [":EXT:MODE EXTI"]
    else ["<AssertionError>"]
  else if o = "LIST" then [":LIST:STATE:ON"]
  else if o = "PROGRAM" then [":PROGRAM:STATE:ON"]
  else ["<AssertionError>"]

/-! ## `update_instrument` (claim C2)

The canonical-state-to-wire write-back of the SDL1000 synchronizer. -/

/-- The inner parameter loop of `update_instrument` for one mode: skip
specs whose third element is `False` and commands already in `set_params`;
on the first actual write of a mode that has a `mode_name`, issue the
`_put_inst_in_mode` commands first.  Returns the emitted events, the grown
`set_params`, and the final `first_write` flag. -/
def runModeParams (ov : String) (cm : Option String) (mn : Option String)
    (st : String → PyVal) :
    List SDLParam → List String → Bool → List Ev × List String × Bool
  | [], setP, fw => ([], setP, fw)
  | p :: rest, setP, fw =>
    if p.writable = false then runModeParams ov cm mn st rest setP fw
    else
      let pc := scpiCmds mn p
      if pc.1 ∈ setP then runModeParams ov cm mn st rest setP fw
      else
        let pre : List Ev × Bool :=
          if fw && mn.isSome then ((putInstInMode ov cm).map Ev.raw, false)
          else ([], fw)
        let evs : List Ev :=
          sdlUpdateOneParamEv pc.1 (st pc.1) ::
            (match pc.2 with
             | some c1 => [sdlUpdateOneParamEv c1 (st c1)]
             | none => [])
        let r := runModeParams ov cm mn st rest (pc.1 :: setP) pre.2
        (pre.1 ++ evs ++ r.1, r.2.1, r.2.2)

/-- The special List-mode upload after the parameter loop: one
`:LIST:LEVEL i,...` / `:LIST:WIDTH i,...` / `:LIST:SLEW i,...` line per
step.  (A non-integer `:LIST:STEP` would raise `TypeError` in the source;
no claim exercises that path.) -/
def listModeBlock (st : String → PyVal) (levels widths slews : List ℚ) :
    List Ev :=
  let steps : Nat := match st ":LIST:STEP" with | .i n => n.toNat | _ => 0
  (List.range steps).flatMap (fun j =>
    [Ev.writeIdx ":LIST:LEVEL" (j + 1) (levels.getD j 0),
     Ev.writeIdx ":LIST:WIDTH" (j + 1) (widths.getD j 0),
     Ev.writeIdx ":LIST:SLEW" (j + 1) (slews.getD j 0)])

/-- Wire events of one mode iteration of `update_instrument`: the
parameter-loop events and the (first-time) List-mode upload. -/
structure SegOut where
  mode : SDLMode
  paramEvs : List Ev
  extraEvs : List Ev
  deriving DecidableEq, Repr

/-- The outer loop of `update_instrument`, threading `set_params` and
`first_list_mode_write` across the mode table. -/
def updInstSegsGo (st : String → PyVal) (levels widths slews : List ℚ) :
    List SDLMode → List String → Bool → List SegOut
  | [], _, _ => []
  | m :: rest, setP, firstList =>
    let r := runModeParams m.overall m.constM m.modeName st m.params setP true
    let ex : List Ev × Bool :=
      if (m.modeName == some "LIST") && firstList
      then (listModeBlock st levels widths slews, false)
      else ([], firstList)
    ⟨m, r.1, ex.1⟩ :: updInstSegsGo st levels widths slews rest r.2.1 ex.2

/-- Per-mode wire-event segments of one `update_instrument` execution over
the real `_SDL_MODE_PARAMS` table. -/
def sdlUpdateInstrumentSegs (st : String → PyVal)
    (levels widths slews : List ℚ) : List SegOut :=
  updInstSegsGo st levels widths slews sdlModes [] true

/-- The flat wire trace of `update_instrument`, ending with the final
`_put_inst_in_mode(self._cur_overall_mode, self._cur_const_mode)`. -/
def sdlUpdateInstrument (st : String → PyVal) (levels widths slews : List ℚ)
    (curOverall : String) (curConst : Option String) : List Ev :=
  ((sdlUpdateInstrumentSegs st levels widths slews).flatMap
      (fun s => s.paramEvs ++ s.extraEvs))
    ++ (putInstInMode curOverall curConst).map Ev.raw

/-- The event is a single-parameter write. -/
def isWriteEv : Ev → Bool
  | .write _ _ => true
  | _ => false

/-- Strip an expected leading run of `.raw` command lines. -/
def stripRawLead : List String → List Ev → Option (List Ev)
  | [], evs => some evs
  | c :: cs, evs =>
    match evs with
    | Ev.raw c' :: rest => if c = c' then stripRawLead cs rest else none
    | _ => none

/-- Mode-switch ordering for one segment: a mode with a `mode_name` either
writes no descriptor parameter at all, or its segment starts with the
dedicated `_put_inst_in_mode` command(s) followed only by parameter
writes. -/
def segOk (s : SegOut) : Bool :=
  match s.mode.modeName with
  | none => true
  | some _ =>
    match stripRawLead (putInstInMode s.mode.overall s.mode.constM) s.paramEvs with
    | some t => t.all isWriteEv
    | none => s.paramEvs.isEmpty

/-- Mode-switch ordering for a whole `update_instrument` execution. -/
def checkModeSwitchOrdering (segs : List SegOut) : Bool := segs.all segOk

/-! ## Diff-before-write commit (claim C3)

`_update_param_state_and_inst` (SDL1000) walks a partial new parameter
dict and, for each key, writes to the instrument and updates
`_param_state` only when the new value differs; `_update_instrument`
(SDM3000) diffs the limited per-paramset state against the last applied
wire state `prev_state.get(key, None)`. -/

/-- `_update_param_state_and_inst(new_param_state)` over the current
`_param_state`: returns the updated state, the wire events in order, and
an error for a missing key (`KeyError` on `self._param_state[key]`). -/
def updateParamStateAndInst :
    List (String × PyVal) → List (String × PyVal) →
      List (String × PyVal) × List Ev × Option PyErr
  | st, [] => (st, [], none)
  | st, (k, v) :: rest =>
    match alookup k st with
    | none => (st, [], some .keyError)
    | some cur =>
      if v ≠ cur then
        let r := updateParamStateAndInst (aset k v st) rest
        (r.1, sdlUpdateOneParamEv k v :: r.2.1, r.2.2)
      else
        updateParamStateAndInst st rest

/-- The diff loop of the SDM3000 `_update_instrument`: one write per
limited-state entry whose value differs from `prev_state.get(key, None)`. -/
def sdmUpdateInstrumentDiff (prev : List (String × PyVal)) :
    List (String × PyVal) → List Ev
  | [] => []
  | (k, v) :: rest =>
    if alookup k prev ≠ some v
    then sdmUpdateOneParamEv k v :: sdmUpdateInstrumentDiff prev rest
    else sdmUpdateInstrumentDiff prev rest

/-! ## `refresh()` (claims C1 and C4)

The SDL1000 `refresh` reads every parameter of every mode descriptor from
the instrument into a freshly blanked `_param_state` (the method's first
statement is `self._param_state = {}`), applies the active-flag sentinel
correction, reads the List-mode tables, and forces `:TRIGGER:SOURCE` away
from `MANUAL`.  The synchronous transport (`device/device.py`) raises
`ContactLostError` on an I/O failure, which propagates out of `refresh`. -/

/-- Type-directed conversion of a wire response in `refresh`
(`match param_type: 'f' / 'b','d' / 's','r' / assert False`). -/
def convParam (pt : Char) (s : String) : Except PyErr PyVal :=
  if pt = 'f' then
    match pyFloat s with
    | some q => .ok (.f q)
    | none => .error .valueError
  else if pt = 'b' ∨ pt = 'd' then
    match pyFloat s with
    | some q => .ok (.i (pyTrunc q))
    | none => .error .valueError
  else if pt = 's' ∨ pt = 'r' then .ok (.s (pyUpper s))
  else .error .assertionError

/-- The per-mode parameter loop of `refresh`: skip commands already in
`_param_state`; query and convert; for a flagged parameter also query the
boolean flag and, when the flag is falsy and the stored value nonzero,
force the stored value to the `0`/`0.0` sentinel and write `{param0} 0`
to the instrument.  A raised wire or conversion error aborts the loop,
leaving the partial state. -/
def refreshParamsLoop (wire : String → Except PyErr String)
    (mn : Option String) :
    List SDLParam → List (String × PyVal) → List Ev →
      List (String × PyVal) × List Ev × Option PyErr
  | [], st, tr => (st, tr, none)
  | p :: rest, st, tr =>
    let pc := scpiCmds mn p
    if (alookup pc.1 st).isSome then refreshParamsLoop wire mn rest st tr
    else
      let tr1 := tr ++ [Ev.query (pc.1 ++ "?")]
      match wire (pc.1 ++ "?") with
      | .error e => (st, tr1, some e)
      | .ok resp =>
        match convParam p.ptype resp with
        | .error e => (st, tr1, some e)
        | .ok v0 =>
          let st1 := aset pc.1 v0 st
          match pc.2 with
          | none => refreshParamsLoop wire mn rest st1 tr1
          | some c1 =>
            let tr2 := tr1 ++ [Ev.query (c1 ++ "?")]
            match wire (c1 ++ "?") with
            | .error e => (st1, tr2, some e)
            | .ok resp1 =>
              match pyFloat resp1 with
              | none => (st1, tr2, some .valueError)
              | some q1 =>
                let v1 : Int := pyTrunc q1
                let st2 := aset c1 (PyVal.i v1) st1
                if v1 = 0 then
                  match alookup pc.1 st2 with
                  | none => (st2, tr2, some .keyError)
                  | some v0' =>
                    if pyNeZeroB v0' then
                      refreshParamsLoop wire mn rest
                        (aset pc.1 (if p.ptype = 'f' then PyVal.f 0 else PyVal.i 0) st2)
                        (tr2 ++ [Ev.raw (pc.1 ++ " 0")])
                    else refreshParamsLoop wire mn rest st2 tr2
                else refreshParamsLoop wire mn rest st2 tr2

/-- The outer loop of `refresh` over `_SDL_MODE_PARAMS`. -/
def refreshModesLoop (wire : String → Except PyErr String) :
    List SDLMode → List (String × PyVal) → List Ev →
      List (String × PyVal) × List Ev × Option PyErr
  | [], st, tr => (st, tr, none)
  | m :: rest, st, tr =>
    let r := refreshParamsLoop wire m.modeName m.params st tr
    match r.2.2 with
    | some _ => r
    | none => refreshModesLoop wire rest r.1 r.2.1

/-- One query whose response is fed to `float(...)`. -/
def queryFloat (wire : String → Except PyErr String) (cmd : String)
    (tr : List Ev) : List Ev × Except PyErr ℚ :=
  let tr1 := tr ++ [Ev.query cmd]
  match wire cmd with
  | .error e => (tr1, .error e)
  | .ok s =>
      match pyFloat s with
      | some q => (tr1, .ok q)
      | none => (tr1, .error .valueError)

/-- Row loop of `_update_list_mode_from_instrument` (fresh read: rows
`1..steps`, three queries per row, aborting on a raised error). -/
def listReadLoop (wire : String → Except PyErr String) :
    Nat → Nat → List Ev → List Ev × Option PyErr
  | 0, _, tr => (tr, none)
  | k + 1, i, tr =>
    let a := queryFloat wire (":LIST:LEVEL? " ++ toString i) tr
    match a.2 with
    | .error e => (a.1, some e)
    | .ok _ =>
      let b := queryFloat wire (":LIST:WIDTH? " ++ toString i) a.1
      match b.2 with
      | .error e => (b.1, some e)
      | .ok _ =>
        let c := queryFloat wire (":LIST:SLEW? " ++ toString i) b.1
        match c.2 with
        | .error e => (c.1, some e)
        | .ok _ => listReadLoop wire k (i + 1) c.1

/-- `_update_list_mode_from_instrument()` as called from `refresh`: the
step count comes from the freshly read `:LIST:STEP`. -/
def refreshListModeRead (wire : String → Except PyErr String)
    (st : List (String × PyVal)) (tr : List Ev) : List Ev × Option PyErr :=
  match alookup ":LIST:STEP" st with
  | some (.i n) => listReadLoop wire n.toNat 1 tr
  | some _ => (tr, some .typeError)
  | none => (tr, some .keyError)

/-- The `:TRIGGER:SOURCE == 'MANUAL'` correction at the end of `refresh`,
issued through `_update_param_state_and_inst`. -/
def refreshTriggerFix (st : List (String × PyVal)) (tr : List Ev) :
    List (String × PyVal) × List Ev × Option PyErr :=
  match alookup ":TRIGGER:SOURCE" st with
  | none => (st, tr, some .keyError)
  | some v =>
    if v = PyVal.s "MANUAL" then
      let r := updateParamStateAndInst st [(":TRIGGER:SOURCE", PyVal.s "BUS")]
      (r.1, tr ++ r.2.1, r.2.2)
    else (st, tr, none)

/-- Result of a `refresh()` call: the `_param_state` left behind, the wire
trace, and the exception that propagated (if any). -/
structure RefreshOut where
  st : List (String × PyVal)
  trace : List Ev
  err : Option PyErr
  deriving DecidableEq, Repr

/-- `refresh()` starting from a prior `_param_state` snapshot.  The
method's first statement `self._param_state = {}` discards `prior`
before any wire I/O happens. -/
def sdlRefreshFrom (prior : List (String × PyVal))
    (wire : String → Except PyErr String) : RefreshOut :=
  let _ := prior
  let r := refreshModesLoop wire sdlModes [] []
  match r.2.2 with
  | some e => ⟨r.1, r.2.1, some e⟩
  | none =>
    let l := refreshListModeRead wire r.1 r.2.1
    match l.2 with
    | some e => ⟨r.1, l.1, some e⟩
    | none =>
      let t := refreshTriggerFix r.1 l.1
      ⟨t.1, t.2.1, t.2.2⟩

/-- A wire on which every query raises `ContactLostError`. -/
def failWire : String → Except PyErr String := fun _ => .error .contactLost

/-! ## Inactive-implies-sentinel invariant (claim C4) -/

/-- All (value command, flag command, value type) triples of parameters
that carry an associated boolean "active" flag, over the whole
`_SDL_MODE_PARAMS` table, with `_scpi_cmds_from_param_info` applied. -/
def sdlFlagPairCmds : List (String × String × Char) :=
  sdlModes.flatMap (fun m =>
    m.params.filterMap (fun p =>
      match scpiCmds m.modeName p with
      | (c0, some c1) => some (c0, c1, p.ptype)
      | (_, none) => none))

/-- The inactive-implies-sentinel check over one completed `refresh()`:
whenever a flag command reads back `0` in the produced snapshot, the
associated value is the `0`/`0.0` sentinel, and, when the wire had
returned a nonzero value for it, the corrective `{param0} 0` write is in
the trace.  (A refresh aborted by an exception produces no snapshot.) -/
def refreshFlagInvariantCheck (wire : String → Except PyErr String) : Bool :=
  let r := sdlRefreshFrom [] wire
  match r.err with
  | some _ => true
  | none =>
    sdlFlagPairCmds.all (fun pc =>
      if alookup pc.2.1 r.st = some (PyVal.i 0) then
        ((alookup pc.1 r.st).any (fun v => decide (pyIsZero v))) &&
        (match wire (pc.1 ++ "?") with
         | .ok resp =>
             match convParam pc.2.2 resp with
             | .ok v0 =>
                 !pyNeZeroB v0 || decide (Ev.raw (pc.1 ++ " 0") ∈ r.trace)
             | .error _ => true
         | .error _ => true)
      else true)

/-- The invariant for one flag pair over a parameter state and trace. -/
def PairInv (wire : String → Except PyErr String)
    (st : List (String × PyVal)) (tr : List Ev)
    (pc : String × String × Char) : Prop :=
  alookup pc.2.1 st = some (PyVal.i 0) →
    (∃ v, alookup pc.1 st = some v ∧ pyIsZero v) ∧
    (∀ resp v0, wire (pc.1 ++ "?") = .ok resp →
       convParam pc.2.2 resp = .ok v0 → pyNeZeroB v0 = true →
       Ev.raw (pc.1 ++ " 0") ∈ tr)

/-- The invariant over all flag pairs of the table. -/
def AllPairInv (wire : String → Except PyErr String)
    (st : List (String × PyVal)) (tr : List Ev) : Prop :=
  ∀ pc ∈ sdlFlagPairCmds, PairInv wire st tr pc

/-- A flag command is only ever present together with its value command. -/
def FlagKeysInv (st : List (String × PyVal)) : Prop :=
  ∀ pc ∈ sdlFlagPairCmds, (alookup pc.2.1 st).isSome = true →
    (alookup pc.1 st).isSome = true

/-- A wire whose every response is the line `0`. -/
def allZeroWire : String → Except PyErr String := fun _ => .ok "0"

/-! ## SDM3000 range conversion tables (claim C5)

The `_RANGE_*` dictionaries of `conductor/device/siglent_sdm3000.py`:
per-model maps wire-read numeric → wire-write token, wire-write token →
display label, and the derived inversion display label → wire-write
token.  The wire-read numerics are Python floats, modelled as `ℚ`. -/

/-- Lookup in a float-keyed Python dict. -/
def qlookup {α : Type} (k : ℚ) : List (ℚ × α) → Option α
  | [] => none
  | (k', v) :: t => if k' = k then some v else qlookup k t

/-- The dict comprehension `{value: key for key, value in x.items()}`.
(With duplicated values the last binding would win in Python; the display
columns are pairwise distinct — part of the C5 theorem — so plain
swapping is equivalent.) -/
def invertTable (t : List (String × String)) : List (String × String) :=
  t.map (fun kv => (kv.2, kv.1))

def sdmModels : List String := ["SDM3045X", "SDM3055", "SDM3065X"]

def RANGE_VAC_SCPI_READ_TO_WRITE : List (String × List (ℚ × String)) :=
  [("SDM3045X", [(0.6, "600MV"), (6.0, "6V"), (60.0, "60V"),
    (600.0, "600V"), (750.0, "750V")]),
   ("SDM3055", [(0.2, "200MV"), (2.0, "2V"), (20.0, "20V"),
    (200.0, "200V"), (750.0, "750V")]),
   ("SDM3065X", [(0.2, "200MV"), (2.0, "2V"), (20.0, "20V"),
    (200.0, "200V"), (750.0, "750V")])]

def RANGE_VAC_SCPI_WRITE_TO_DISP : List (String × List (String × String)) :=
  [("SDM3045X", [("600MV", "600 mV"), ("6V", "6 V"), ("60V", "60 V"),
    ("600V", "600 V"), ("750V", "750 V")]),
   ("SDM3055", [("200MV", "200 mV"), ("2V", "2 V"), ("20V", "20 V"),
    ("200V", "200 V"), ("750V", "750 V")]),
   ("SDM3065X", [("200MV", "200 mV"), ("2V", "2 V"), ("20V", "20 V"),
    ("200V", "200 V"), ("750V", "750 V")])]

def RANGE_VDC_SCPI_READ_TO_WRITE : List (String × List (ℚ × String)) :=
  [("SDM3045X", [(0.6, "600MV"), (6.0, "6V"), (60.0, "60V"),
    (600.0, "600V"), (1000.0, "1000V")]),
   ("SDM3055", [(0.2, "200MV"), (2.0, "2V"), (20.0, "20V"),
    (200.0, "200V"), (1000.0, "1000V")]),
   ("SDM3065X", [(0.2, "200MV"), (2.0, "2V"), (20.0, "20V"),
    (200.0, "200V"), (1000.0, "1000V")])]

def RANGE_VDC_SCPI_WRITE_TO_DISP : List (String × List (String × String)) :=
  [("SDM3045X", [("600MV", "600 mV"), ("6V", "6 V"), ("60V", "60 V"),
    ("600V", "600 V"), ("1000V", "1000 V")]),
   ("SDM3055", [("200MV", "200 mV"), ("2V", "2 V"), ("20V", "20 V"),
    ("200V", "200 V"), ("1000V", "1000 V")]),
   ("SDM3065X", [("200MV", "200 mV"), ("2V", "2 V"), ("20V", "20 V"),
    ("200V", "200 V"), ("1000V", "1000 V")])]

def RANGE_IAC_SCPI_READ_TO_WRITE : List (String × List (ℚ × String)) :=
  [("SDM3045X", [(0.06, "60MA"), (0.6, "600MA"), (6.0, "6A"),
    (10.0, "10A")]),
   ("SDM3055", [(0.02, "20MA"), (0.2, "200MA"), (2.0, "2A"),
    (10.0, "10A")]),
   ("SDM3065X", [(0.0002, "200UA"), (0.002, "2MA"), (0.02, "20MA"),
    (0.2, "200MA"), (2.0, "2A"), (10.0, "10A")])]

def RANGE_IAC_SCPI_WRITE_TO_DISP : List (String × List (String × String)) :=
  [("SDM3045X", [("60MA", "60 mA"), ("600MA", "600 mA"), ("6A", "6 A"),
    ("10A", "10 A")]),
   ("SDM3055", [("200UA", "200 µA"), ("2MA", "2 mA"), ("20MA", "20 mA"),
    ("200MA", "200 mA"), ("2A", "2 A"), ("10A", "10 A")]),
   ("SDM3065X", [("200UA", "200 µA"), ("2MA", "2 mA"), ("20MA", "20 mA"),
    ("200MA", "200 mA"), ("2A", "2 A"), ("10A", "10 A")])]

def RANGE_IDC_SCPI_READ_TO_WRITE : List (String × List (ℚ × String)) :=
  [("SDM3045X", [(0.0006, "600UA"), (0.006, "6MA"), (0.06, "60MA"),
    (0.6, "600MA"), (6.0, "6A"), (10.0, "10A")]),
   ("SDM3055", [(0.0002, "200UA"), (0.002, "2MA"), (0.02, "20MA"),
    (0.2, "200MA"), (2.0, "2A"), (10.0, "10A")]),
   ("SDM3065X", [(0.0002, "200UA"), (0.002, "2MA"), (0.02, "20MA"),
    (0.2, "200MA"), (2.0, "2A"), (10.0, "10A")])]

def RANGE_IDC_SCPI_WRITE_TO_DISP : List (String × List (String × String)) :=
  [("SDM3045X", [("600UA", "600 µA"), ("6MA", "6 mA"), ("60MA", "60 mA"),
    ("600MA", "600 mA"), ("6A", "6 A"), ("10A", "10 A")]),
   ("SDM3055", [("200UA", "200 µA"), ("2MA", "2 mA"), ("20MA", "20 mA"),
    ("200MA", "200 mA"), ("2A", "2 A"), ("10A", "10 A")]),
   ("SDM3065X", [("200UA", "200 µA"), ("2MA", "2 mA"), ("20MA", "20 mA"),
    ("200MA", "200 mA"), ("2A", "2 A"), ("10A", "10 A")])]

def RANGE_R_SCPI_READ_TO_WRITE : List (String × List (ℚ × String)) :=
  [("SDM3045X", [(600.0, "600OHM"), (6000.0, "6KOHM"), (60000.0, "60KOHM"),
    (600000.0, "600KOHM"), (6000000.0, "6MOHM"), (60000000.0, "60MOHM"),
    (100000000.0, "100MOHM")]),
   ("SDM3055", [(200.0, "200OHM"), (2000.0, "2KOHM"), (20000.0, "20KOHM"),
    (200000.0, "200KOHM"), (2000000.0, "2MOHM"), (10000000.0, "10MOHM"),
    (100000000.0, "100MOHM")]),
   ("SDM3065X", [(200.0, "200OHM"), (2000.0, "2KOHM"), (20000.0, "20KOHM"),
    (200000.0, "200KOHM"), (1000000.0, "1MOHM"), (10000000.0, "10MOHM"),
    (100000000.0, "100MOHM")])]

def RANGE_R_SCPI_WRITE_TO_DISP : List (String × List (String × String)) :=
  [("SDM3045X", [("600OHM", "600 Ω"), ("6KOHM", "6 kΩ"), ("60KOHM", "60 kΩ"),
    ("600KOHM", "600 kΩ"), ("6MOHM", "6 MΩ"), ("60MOHM", "60 MΩ"),
    ("100MOHM", "100 MΩ")]),
   ("SDM3055", [("200OHM", "200 Ω"), ("2KOHM", "2 kΩ"), ("20KOHM", "20 kΩ"),
    ("200KOHM", "200 kΩ"), ("2MOHM", "2 MΩ"), ("10MOHM", "10 MΩ"),
    ("100MOHM", "100 MΩ")]),
   ("SDM3065X", [("200OHM", "200 Ω"), ("2KOHM", "2 kΩ"), ("20KOHM", "20 kΩ"),
    ("200KOHM", "200 kΩ"), ("1MOHM", "1 MΩ"), ("10MOHM", "10 MΩ"),
    ("100MOHM", "100 MΩ")])]

def RANGE_C_SCPI_READ_TO_WRITE : List (String × List (ℚ × String)) :=
  [("SDM3045X", [(0.000000002, "2NF"), (0.000000020, "20NF"),
    (0.000000200, "200NF"), (0.000002000, "2UF"), (0.000020000, "20UF"),
    (0.000200000, "200UF"), (0.010000000, "10000UF")]),
   ("SDM3055", [(0.000000002, "2NF"), (0.000000020, "20NF"),
    (0.000000200, "200NF"), (0.000002000, "2UF"), (0.000020000, "20UF"),
    (0.000200000, "200UF"), (0.010000000, "10000UF")]),
   ("SDM3065X", [(0.000000002, "2NF"), (0.000000020, "20NF"),
    (0.000000200, "200NF"), (0.000002000, "2UF"), (0.000020000, "20UF"),
    (0.000200000, "200UF"), (0.002000000, "2MF"), (0.020000000, "20MF"),
    (0.100000000, "100MF")])]

def RANGE_C_SCPI_WRITE_TO_DISP : List (String × List (String × String)) :=
  [("SDM3045X", [("2NF", "2 nF"), ("20NF", "20 nF"), ("200NF", "200 nF"),
    ("2UF", "2 µF"), ("20UF", "20 µF"), ("200UF", "200 µF"),
    ("10000UF", "10000 µF")]),
   ("SDM3055", [("2NF", "2 nF"), ("20NF", "20 nF"), ("200NF", "200 nF"),
    ("2UF", "2 µF"), ("20UF", "20 µF"), ("200UF", "200 µF"),
    ("10000UF", "10000 µF")]),
   ("SDM3065X", [("2NF", "2 nF"), ("20NF", "20 nF"), ("200NF", "200 nF"),
    ("2UF", "2 µF"), ("20UF", "20 µF"), ("200UF", "200 µF"),
    ("2MF", "2 mF"), ("20MF", "20 mF"), ("100MF", "100 mF")])]

/-- `_range_iac_scpi_read_to_scpi_write`: `KeyError` (here `none`) on an
unknown read value — "fails loudly". -/
def range_iac_scpi_read_to_scpi_write (model : String) (param : ℚ) :
    Option String :=
  (alookup model RANGE_IAC_SCPI_READ_TO_WRITE).bind (fun t => qlookup param t)

/-- `_range_iac_scpi_write_to_disp`. -/
def range_iac_scpi_write_to_disp (model r : String) : Option String :=
  (alookup model RANGE_IAC_SCPI_WRITE_TO_DISP).bind (fun t => alookup r t)

/-- `_range_iac_disp_to_scpi_write` over the derived
`_RANGE_IAC_DISP_TO_SCPI_WRITE`. -/
def range_iac_disp_to_scpi_write (model r : String) : Option String :=
  (alookup model RANGE_IAC_SCPI_WRITE_TO_DISP).bind
    (fun t => alookup r (invertTable t))

/-- Well-formedness of one quantity family's conversion tables, for every
model: the read table's write-token column is duplicate-free (the
read→write map is injective), the write→display table is injective in
both columns, the derived display→write table is its exact inverse (so
`display → write → display` and `write → display → write` round-trips are
identities), every write token produced by the read table has a display
label, and — except for an exempted model — every display-table token is
produced by some read-table entry (the two token sets coincide). -/
def familyTablesOk (readT : List (String × List (ℚ × String)))
    (dispT : List (String × List (String × String)))
    (exempt : Option String) : Bool :=
  sdmModels.all (fun model =>
    let rt := (alookup model readT).getD []
    let wt := (alookup model dispT).getD []
    decide ((rt.map Prod.snd).Nodup) &&
    decide ((wt.map Prod.fst).Nodup) &&
    decide ((wt.map Prod.snd).Nodup) &&
    wt.all (fun kv => alookup kv.2 (invertTable wt) == some kv.1) &&
    wt.all (fun kv => alookup kv.1 wt == some kv.2) &&
    rt.all (fun kv => (alookup kv.2 wt).isSome) &&
    (exempt == some model ||
      wt.all (fun kv => (rt.map Prod.snd).contains kv.1)))

/-! ## Multi-set measurement polling (claim C6)

`_update_measurements_and_triggers` (SDM3000): one polling pass iterates
paramset slots `1..4`.  Slot 1 has no `Enable` checkbox (the widget is
created only for `paramset_num != 1`) and is always processed; any other
slot whose checkbox is unchecked is skipped by `continue` before any wire
interaction.  A processed slot first applies the diff of its limited
parameter state against `_last_measurement_param_state`
(`_update_instrument`, whose return value becomes the new last-applied
state), then issues one `READ?` query whose response feeds `float(...)`.
The display bookkeeping after the parse does no wire I/O and is omitted;
a raised transport error ends the pass. -/

/-- One polling pass over the given slot numbers.  `ltd i` is slot `i`'s
`_limited_param_state` (universally quantified in the claims), `prev` is
`_last_measurement_param_state`.  Returns the slot-tagged wire events, the
final last-applied state, and the exception that ended the pass, if any. -/
def sdmMeasurementPass (wire : String → Except PyErr String)
    (enabled : Nat → Bool) (ltd : Nat → List (String × PyVal)) :
    List Nat → List (String × PyVal) →
      List (Nat × Ev) × List (String × PyVal) × Option PyErr
  | [], prev => ([], prev, none)
  | i :: rest, prev =>
    if decide (i ≠ 1) && !(enabled i) then
      sdmMeasurementPass wire enabled ltd rest prev
    else
      let wEvs := (sdmUpdateInstrumentDiff prev (ltd i)).map (fun e => (i, e))
      match wire "READ?" with
      | .error e => (wEvs ++ [(i, Ev.query "READ?")], ltd i, some e)
      | .ok s =>
        match pyFloat s with
        | none => (wEvs ++ [(i, Ev.query "READ?")], ltd i, some .valueError)
        | some _ =>
          let r := sdmMeasurementPass wire enabled ltd rest (ltd i)
          (wEvs ++ [(i, Ev.query "READ?")] ++ r.1, r.2.1, r.2.2)

/-- The pass over the real slot range `range(1, self._NUM_PARAMSET+1)`
with `_NUM_PARAMSET = 4`. -/
def sdmUpdateMeasurementsPass (wire : String → Except PyErr String)
    (enabled : Nat → Bool) (ltd : Nat → List (String × PyVal))
    (prev : List (String × PyVal)) :
    List (Nat × Ev) × List (String × PyVal) × Option PyErr :=
  sdmMeasurementPass wire enabled ltd [1, 2, 3, 4] prev

/-! ## List-mode sequence stepping (claim C7)

`InstrumentSiglentSDL1000ConfigureWidget` in `device/siglent_sdl1000.py`:
`_update_heartbeat` advances `_list_mode_cur_step_num` across every step
boundary that `time.time()` has crossed, `_on_click_trigger`'s List branch
starts the progression or arms `_list_mode_stopping`, and the paused
branch of `_update_list_table_graph` highlights
`(step_num-1) % self._param_state[':LIST:STEP']`.  Times are integers. -/

/-- The list-mode progression state: `_list_mode_running`,
`_list_mode_stopping`, `_list_mode_cur_step_num` (`none` models Python
`None`) and `_list_mode_cur_step_start_time`. -/
structure ListModeState where
  running : Bool
  stopping : Bool
  stepNum : Option Nat
  stepStart : Int
  deriving DecidableEq, Repr

/-- The `while delta >= self._list_mode_widths[...]` loop of
`_update_heartbeat`, fuelled; `none` when the fuel runs out while the
loop condition still holds. -/
def lmAdvance (widths : List Int) (steps : Nat) :
    Nat → Int → Nat → Option (Int × Nat)
  | 0, delta, stepNum =>
    if widths.getD stepNum 0 ≤ delta then none else some (delta, stepNum)
  | fuel + 1, delta, stepNum =>
    if widths.getD stepNum 0 ≤ delta then
      lmAdvance widths steps fuel (delta - widths.getD stepNum 0)
        ((stepNum + 1) % steps)
    else some (delta, stepNum)

/-- `_update_heartbeat` at time `t` (the display call and the battery
report are omitted): while running, once the current step's width has
elapsed, consume a pending stop request (clearing `running`), advance the
step counter across every completed step, and rebase the step start time.
Indexing `_list_mode_widths[None]` would raise, hence `none` there. -/
def updateHeartbeat (widths : List Int) (steps fuel : Nat) (t : Int)
    (st : ListModeState) : Option ListModeState :=
  if st.running then
    match st.stepNum with
    | none => none
    | some k =>
      let delta := t - st.stepStart
      if widths.getD k 0 ≤ delta then
        let st1 :=
          if st.stopping then
            { st with stopping := false, running := false }
          else st
        match lmAdvance widths steps fuel delta k with
        | none => none
        | some dk =>
          some { st1 with stepNum := some dk.2, stepStart := t - dk.1 }
      else some st
  else some st

/-- The List-mode branch of `_on_click_trigger` (after `self._inst.trg()`
and the enabled-guard): start the progression when it is not running,
otherwise arm the stop-after-current-step flag. -/
def onClickTriggerList (t : Int) (st : ListModeState) : ListModeState :=
  if st.running then { st with stopping := true }
  else
    { running := true, stopping := false,
      stepNum := some (st.stepNum.getD 0), stepStart := t }

/-- The step index that `_update_list_table_graph` highlights
(`set_highlighted_row`): the current step while running; after a pause,
`(step_num-1) % self._param_state[':LIST:STEP']`, the step that just
finished. -/
def reportedStep (steps : Nat) (st : ListModeState) : Option Nat :=
  match st.stepNum with
  | none => none
  | some k =>
    if st.running then some k
    else some (((k : Int) - 1).emod (steps : Int)).toNat

/-! ## SPD3303 write-back (claim C9)

`InstrumentSiglentSPD3303ConfigureWidget.update_instrument` in
`device/siglent_spd3303.py`.  For each of the two channels it binds
`volt = self._psu_voltage[ch]` and `curr = self._psu_current[ch]`, then
writes `f'CH{ch+1}:VOLT {volt:.3f}'` and `f'CH{ch+1}:CURR {volt:.3f}'` —
both f-strings interpolate `volt`.  The timer and OUTPUT writes follow;
the local `status` accumulator is never sent. -/

/-- A wire write of `update_instrument`, with the numeric payloads kept
exact (`:.3f` formatting left uninterpreted). -/
inductive SPDEv where
  | writeQ (cmd : String) (val : ℚ)
  | writeTimer (cmd : String) (volt curr timer : ℚ)
  | writeOnOff (cmd : String) (onOff : Bool)
  deriving DecidableEq

/-- The five `TIMER:SET CH{ch+1},{entry+1},...` writes for one channel. -/
def spdTimerWrites (ch : Nat) (tp : List (ℚ × ℚ × ℚ)) : List SPDEv :=
  (List.range 5).map (fun entry =>
    let p := tp.getD entry (0, 0, 0)
    SPDEv.writeTimer
      ("TIMER:SET CH" ++ toString (ch + 1) ++ "," ++ toString (entry + 1))
      p.1 p.2.1 p.2.2)

/-- The wire trace of `update_instrument`: per channel the VOLT write, the
CURR write (both interpolating the `volt` local), and the timer writes;
then the three OUTPUT writes. -/
def spdUpdateInstrument (_psu_voltage _psu_current : List ℚ)
    (_psu_timer_params : List (List (ℚ × ℚ × ℚ)))
    (_psu_on_off : List Bool) : List SPDEv :=
  ((List.range 2).flatMap (fun ch =>
    let volt := _psu_voltage.getD ch 0
    [SPDEv.writeQ ("CH" ++ toString (ch + 1) ++ ":VOLT") volt,
     SPDEv.writeQ ("CH" ++ toString (ch + 1) ++ ":CURR") volt] ++
    spdTimerWrites ch (_psu_timer_params.getD ch []))) ++
  (List.range 3).map (fun ch =>
    SPDEv.writeOnOff ("OUTPUT CH" ++ toString (ch + 1))
      (_psu_on_off.getD ch false))

theorem alookup_aset_self {α : Type} (k : String) (v : α) :
    ∀ l : List (String × α), alookup k (aset k v l) = some v := by
  intro l
  induction l with
  | nil => simp [aset, alookup]
  | cons h t ih =>
    by_cases hk : h.1 = k
    · simp [aset, hk, alookup]
    · simp [aset, hk, alookup, ih]

theorem alookup_aset_ne {α : Type} (k k' : String) (v : α) (hne : k ≠ k') :
    ∀ l : List (String × α), alookup k' (aset k v l) = alookup k' l := by
  intro l
  induction l with
  | nil => simp [aset, alookup, hne]
  | cons hd t ih =>
    obtain ⟨a, b⟩ := hd
    by_cases hk : a = k
    · simp [aset, hk, alookup, hne]
    · simp [aset, hk, alookup, ih]

theorem runModeParams_false_writes (ov : String) (cm mn : Option String)
    (st : String → PyVal) :
    ∀ (ps : List SDLParam) (setP : List String),
      ((runModeParams ov cm mn st ps setP false).1).all isWriteEv = true := by
  intro ps
  induction ps with
  | nil => intro setP; simp [runModeParams]
  | cons p rest ih =>
    intro setP
    by_cases hw : p.writable = false
    · simpa [runModeParams, hw] using ih setP
    · by_cases hm : (scpiCmds mn p).1 ∈ setP
      · simpa [runModeParams, hw, hm] using ih setP
      · rcases hpc : (scpiCmds mn p).2 with _ | c1 <;>
          simp [runModeParams, hw, hm, hpc, isWriteEv, sdlUpdateOneParamEv, ih]

theorem runModeParams_true_shape (ov : String) (cm mn : Option String)
    (st : String → PyVal) (hmn : mn.isSome = true) :
    ∀ (ps : List SDLParam) (setP : List String),
      (runModeParams ov cm mn st ps setP true).1 = [] ∨
      ∃ t, (runModeParams ov cm mn st ps setP true).1 =
              (putInstInMode ov cm).map Ev.raw ++ t ∧ t.all isWriteEv = true := by
  intro ps
  induction ps with
  | nil => intro setP; left; simp [runModeParams]
  | cons p rest ih =>
    intro setP
    by_cases hw : p.writable = false
    · simpa [runModeParams, hw] using ih setP
    · by_cases hm : (scpiCmds mn p).1 ∈ setP
      · simpa [runModeParams, hw, hm] using ih setP
      · right
        rcases hpc : (scpiCmds mn p).2 with _ | c1
        · refine ⟨sdlUpdateOneParamEv (scpiCmds mn p).1 (st (scpiCmds mn p).1) ::
            (runModeParams ov cm mn st rest ((scpiCmds mn p).1 :: setP) false).1,
            ?_, ?_⟩
          · simp [runModeParams, hw, hm, hmn, hpc]
          · simp [isWriteEv, sdlUpdateOneParamEv,
              runModeParams_false_writes ov cm mn st rest]
        · refine ⟨sdlUpdateOneParamEv (scpiCmds mn p).1 (st (scpiCmds mn p).1) ::
            sdlUpdateOneParamEv c1 (st c1) ::
            (runModeParams ov cm mn st rest ((scpiCmds mn p).1 :: setP) false).1,
            ?_, ?_⟩
          · simp [runModeParams, hw, hm, hmn, hpc]
          · simp [isWriteEv, sdlUpdateOneParamEv,
              runModeParams_false_writes ov cm mn st rest]

theorem stripRawLead_append (cs : List String) (t : List Ev) :
    stripRawLead cs (cs.map Ev.raw ++ t) = some t := by
  induction cs with
  | nil => simp [stripRawLead]
  | cons c cs ih => simp [stripRawLead, ih]

theorem segOk_of_param_shape (m : SDLMode) (pe ex : List Ev)
    (h : pe = [] ∨ ∃ t, pe = (putInstInMode m.overall m.constM).map Ev.raw ++ t ∧
          t.all isWriteEv = true) :
    segOk ⟨m, pe, ex⟩ = true := by
  rcases h with h | ⟨t, ht, hall⟩
  · subst h
    cases hmn : m.modeName with
    | none => simp [segOk, hmn]
    | some nm =>
      cases hput : putInstInMode m.overall m.constM with
      | nil => simp [segOk, hmn, hput, stripRawLead]
      | cons c cs => simp [segOk, hmn, hput, stripRawLead]
  · subst ht
    cases hmn : m.modeName with
    | none => simp [segOk, hmn]
    | some nm => simp [segOk, hmn, stripRawLead_append, hall]

theorem checkOrdering_go (st : String → PyVal) (levels widths slews : List ℚ) :
    ∀ (tbl : List SDLMode) (setP : List String) (fl : Bool),
      checkModeSwitchOrdering (updInstSegsGo st levels widths slews tbl setP fl)
        = true := by
  intro tbl
  induction tbl with
  | nil => intro setP fl; simp [checkModeSwitchOrdering, updInstSegsGo]
  | cons m rest ih =>
    intro setP fl
    simp only [updInstSegsGo, checkModeSwitchOrdering, List.all_cons,
      Bool.and_eq_true]
    refine ⟨?_, ih _ _⟩
    cases hmn : m.modeName with
    | none => simp [segOk, hmn]
    | some nm =>
      exact segOk_of_param_shape m _ _
        (runModeParams_true_shape m.overall m.constM (some nm) st (by simp)
          m.params setP)

/-- **C2** (mode-switch ordering): in every execution of the SDL1000
`update_instrument` write-back — for any canonical parameter state and any
List-mode step tables — every mode of `_SDL_MODE_PARAMS` whose descriptor
has a non-`None` `mode_name` has its dedicated `_put_inst_in_mode`
mode-switch command(s) on the wire strictly before the first descriptor
parameter command written for that mode: each such mode's wire segment is
either empty or consists of the mode-switch line(s) followed exclusively
by single-parameter writes. -/
theorem C2_mode_switch_before_params (st : String → PyVal)
    (levels widths slews : List ℚ) :
    checkModeSwitchOrdering (sdlUpdateInstrumentSegs st levels widths slews)
      = true :=
  checkOrdering_go st levels widths slews sdlModes [] true

theorem key_nodup_eq {l : List (String × PyVal)}
    (h : (l.map Prod.fst).Nodup) {a b : String × PyVal}
    (ha : a ∈ l) (hb : b ∈ l) (hk : a.1 = b.1) : a = b := by
  induction l with
  | nil => cases ha
  | cons hd t ih =>
    rcases List.mem_cons.1 ha with rfl | ha' <;>
      rcases List.mem_cons.1 hb with rfl | hb'
    · rfl
    · exact absurd (hk ▸ List.mem_map_of_mem Prod.fst hb')
        (by simpa using (List.nodup_cons.1 h).1)
    · exact absurd (hk ▸ List.mem_map_of_mem Prod.fst ha')
        (by simpa [hk] using (List.nodup_cons.1 h).1)
    · exact ih (List.nodup_cons.1 h).2 ha' hb'

theorem updateParamStateAndInst_spec :
    ∀ (new st : List (String × PyVal)),
      ((new.map Prod.fst).Nodup) →
      (∀ kv ∈ new, (alookup kv.1 st).isSome) →
      (updateParamStateAndInst st new).2.2 = none ∧
      (updateParamStateAndInst st new).2.1 =
        (new.filter (fun kv => alookup kv.1 st != some kv.2)).map
          (fun kv => sdlUpdateOneParamEv kv.1 kv.2) := by
  intro new
  induction new with
  | nil => intro st _ _; simp [updateParamStateAndInst]
  | cons kv rest ih =>
    intro st hnd hpres
    obtain ⟨k, v⟩ := kv
    obtain ⟨cur, hcur⟩ := Option.isSome_iff_exists.1
      (hpres (k, v) (List.mem_cons_self _ _))
    have hnd' : (rest.map Prod.fst).Nodup := (List.nodup_cons.1 hnd).2
    have hknot : k ∉ rest.map Prod.fst := by
      simpa using (List.nodup_cons.1 hnd).1
    by_cases hv : v ≠ cur
    · have hpres' : ∀ kv' ∈ rest, (alookup kv'.1 (aset k v st)).isSome := by
        intro kv' hkv'
        have hne : k ≠ kv'.1 := fun he =>
          hknot (he ▸ List.mem_map_of_mem Prod.fst hkv')
        rw [alookup_aset_ne k kv'.1 v hne]
        exact hpres kv' (List.mem_cons_of_mem _ hkv')
      obtain ⟨herr, hevs⟩ := ih (aset k v st) hnd' hpres'
      have hfilter :
          rest.filter (fun kv' => alookup kv'.1 (aset k v st) != some kv'.2) =
          rest.filter (fun kv' => alookup kv'.1 st != some kv'.2) := by
        apply List.filter_congr
        intro kv' hkv'
        have hne : k ≠ kv'.1 := fun he =>
          hknot (he ▸ List.mem_map_of_mem Prod.fst hkv')
        rw [alookup_aset_ne k kv'.1 v hne]
      refine ⟨?_, ?_⟩
      · simpa [updateParamStateAndInst, hcur, hv] using herr
      · have hdiff : (alookup k st != some v) = true := by
          simp [hcur]; exact fun he => hv he.symm
        simp only [updateParamStateAndInst, hcur, if_pos hv]
        simp only [List.filter_cons, hdiff, if_pos]
        simp [hevs, hfilter]
    · push_neg at hv
      subst hv
      obtain ⟨herr, hevs⟩ := ih st hnd'
        (fun kv' hkv' => hpres kv' (List.mem_cons_of_mem _ hkv'))
      have hsame : (alookup k st != some v) = false := by simp [hcur]
      refine ⟨?_, ?_⟩
      · simpa [updateParamStateAndInst, hcur] using herr
      · simp only [updateParamStateAndInst, hcur, if_neg (by simp : ¬v ≠ v)]
        simp only [List.filter_cons, hsame]
        simpa using hevs

theorem sdmUpdateInstrumentDiff_spec (prev : List (String × PyVal)) :
    ∀ ltd, sdmUpdateInstrumentDiff prev ltd =
      (ltd.filter (fun kv => alookup kv.1 prev != some kv.2)).map
        (fun kv => sdmUpdateOneParamEv kv.1 kv.2) := by
  intro ltd
  induction ltd with
  | nil => simp [sdmUpdateInstrumentDiff]
  | cons kv rest ih =>
    obtain ⟨k, v⟩ := kv
    by_cases hd : alookup k prev ≠ some v
    · simp [sdmUpdateInstrumentDiff, hd, List.filter_cons, ih]
    · push_neg at hd
      simp [sdmUpdateInstrumentDiff, hd, List.filter_cons, ih]

/-- **C3** (diff minimality of commit): for snapshots differing in exactly
`k` paths, one commit pass issues exactly `k` parameter writes and no
write for a path whose canonical value equals the last-applied value; and
every event issued is a single-parameter write (no mode switches are
needed or emitted by these loops).  First conjunct block: the SDL1000
`_update_param_state_and_inst`; second: the SDM3000 `_update_instrument`
diff against `_last_measurement_param_state`. -/
theorem C3_diff_minimality (st new prev ltd : List (String × PyVal))
    (hnd : (new.map Prod.fst).Nodup)
    (hpres : ∀ kv ∈ new, (alookup kv.1 st).isSome)
    (hnd2 : (ltd.map Prod.fst).Nodup) :
    ((updateParamStateAndInst st new).2.2 = none ∧
     ((updateParamStateAndInst st new).2.1).length =
       (new.filter (fun kv => alookup kv.1 st != some kv.2)).length ∧
     ((updateParamStateAndInst st new).2.1).all isWriteEv = true ∧
     (∀ kv ∈ new, alookup kv.1 st = some kv.2 →
        ∀ d, Ev.write kv.1 d ∉ (updateParamStateAndInst st new).2.1)) ∧
    ((sdmUpdateInstrumentDiff prev ltd).length =
       (ltd.filter (fun kv => alookup kv.1 prev != some kv.2)).length ∧
     (∀ kv ∈ ltd, alookup kv.1 prev = some kv.2 →
        ∀ d, Ev.write kv.1 d ∉ sdmUpdateInstrumentDiff prev ltd)) := by
  obtain ⟨herr, hevs⟩ := updateParamStateAndInst_spec new st hnd hpres
  refine ⟨⟨herr, by simp [hevs], ?_, ?_⟩, ?_, ?_⟩
  · rw [hevs]
    simp only [List.all_eq_true]
    intro e he
    obtain ⟨kv', _, rfl⟩ := List.mem_map.1 he
    rfl
  · intro kv hkv heq d hmem
    rw [hevs] at hmem
    obtain ⟨kv', hkv', hev⟩ := List.mem_map.1 hmem
    have hkey : kv'.1 = kv.1 := by
      simpa [sdlUpdateOneParamEv] using congrArg
        (fun e => match e with | Ev.write c _ => c | _ => "") hev
    have : kv' = kv :=
      key_nodup_eq hnd (List.mem_of_mem_filter hkv') hkv hkey
    subst this
    have := List.of_mem_filter hkv'
    simp [heq] at this
  · simp [sdmUpdateInstrumentDiff_spec]
  · intro kv hkv heq d hmem
    rw [sdmUpdateInstrumentDiff_spec] at hmem
    obtain ⟨kv', hkv', hev⟩ := List.mem_map.1 hmem
    have hkey : kv'.1 = kv.1 := by
      simpa [sdmUpdateOneParamEv] using congrArg
        (fun e => match e with | Ev.write c _ => c | _ => "") hev
    have : kv' = kv :=
      key_nodup_eq hnd2 (List.mem_of_mem_filter hkv') hkv hkey
    subst this
    have := List.of_mem_filter hkv'
    simp [heq] at this

/-- Witness for C3 at concrete snapshots: the current state has paths
`A ↦ 1, B ↦ 2`; the commit request keeps `A` and changes `B`, so exactly
one write goes out and none for `A`; the SDM side diffs two entries of
which one is already applied. -/
theorem C3_diff_minimality_witness :
    (([("A", PyVal.i 1), ("B", PyVal.i 3)].map Prod.fst).Nodup ∧
     (∀ kv ∈ [("A", PyVal.i 1), ("B", PyVal.i 3)],
        (alookup kv.1 [("A", PyVal.i 1), ("B", PyVal.i 2)]).isSome) ∧
     (([("X", PyVal.f 0), ("Y", PyVal.s "V")].map Prod.fst).Nodup) ∧
     ((updateParamStateAndInst [("A", PyVal.i 1), ("B", PyVal.i 2)]
         [("A", PyVal.i 1), ("B", PyVal.i 3)]).2.2 = none ∧
      ((updateParamStateAndInst [("A", PyVal.i 1), ("B", PyVal.i 2)]
         [("A", PyVal.i 1), ("B", PyVal.i 3)]).2.1).length =
        ([("A", PyVal.i 1), ("B", PyVal.i 3)].filter
          (fun kv => alookup kv.1 [("A", PyVal.i 1), ("B", PyVal.i 2)]
            != some kv.2)).length ∧
      ((updateParamStateAndInst [("A", PyVal.i 1), ("B", PyVal.i 2)]
         [("A", PyVal.i 1), ("B", PyVal.i 3)]).2.1).all isWriteEv = true ∧
      (∀ kv ∈ [("A", PyVal.i 1), ("B", PyVal.i 3)],
        alookup kv.1 [("A", PyVal.i 1), ("B", PyVal.i 2)] = some kv.2 →
        ∀ d, Ev.write kv.1 d ∉
          (updateParamStateAndInst [("A", PyVal.i 1), ("B", PyVal.i 2)]
            [("A", PyVal.i 1), ("B", PyVal.i 3)]).2.1)) ∧
     ((sdmUpdateInstrumentDiff [("X", PyVal.f 0)]
         [("X", PyVal.f 0), ("Y", PyVal.s "V")]).length =
        ([("X", PyVal.f 0), ("Y", PyVal.s "V")].filter
          (fun kv => alookup kv.1 [("X", PyVal.f 0)] != some kv.2)).length ∧
      (∀ kv ∈ [("X", PyVal.f 0), ("Y", PyVal.s "V")],
        alookup kv.1 [("X", PyVal.f 0)] = some kv.2 →
        ∀ d, Ev.write kv.1 d ∉ sdmUpdateInstrumentDiff [("X", PyVal.f 0)]
          [("X", PyVal.f 0), ("Y", PyVal.s "V")]))) :=
  ⟨by decide, by decide, by decide,
   C3_diff_minimality [("A", PyVal.i 1), ("B", PyVal.i 2)]
     [("A", PyVal.i 1), ("B", PyVal.i 3)] [("X", PyVal.f 0)]
     [("X", PyVal.f 0), ("Y", PyVal.s "V")]
     (by decide) (by decide) (by decide)⟩

/-- **C1 counterexample**: the claim "after an aborted `refresh()` the
canonical parameter state is exactly the pre-refresh snapshot" is false at
a concrete input: starting from the snapshot `{':INPUT:STATE': 1}` and a
wire whose first query raises `ContactLostError`, the aborted `refresh()`
leaves the blanked state `{}`, not the prior snapshot, even though the
error is surfaced. -/
theorem C1_counterexample :
    (sdlRefreshFrom [(":INPUT:STATE", PyVal.i 1)] failWire).err =
        some PyErr.contactLost ∧
      (sdlRefreshFrom [(":INPUT:STATE", PyVal.i 1)] failWire).st ≠
        [(":INPUT:STATE", PyVal.i 1)] := by
  constructor
  · rfl
  · decide

/-- **C1 (amended)**: a wire I/O failure during `refresh()` aborts the
refresh and surfaces the transport error to the caller, but the previous
snapshot is *not* preserved: `_param_state` is discarded at entry (the
result is independent of the prior snapshot), and after an abort the state
holds exactly the parameters processed before the failure — none at all
when the very first query (`:SYST:REMOTE:STATE?`) raises. -/
theorem refreshParamsLoop_cons_err (wire : String → Except PyErr String)
    (mn : Option String) (p : SDLParam) (rest : List SDLParam)
    (st : List (String × PyVal)) (tr : List Ev) (e : PyErr)
    (hmem : (alookup (scpiCmds mn p).1 st).isSome = false)
    (hw : wire ((scpiCmds mn p).1 ++ "?") = .error e) :
    refreshParamsLoop wire mn (p :: rest) st tr =
      (st, tr ++ [Ev.query ((scpiCmds mn p).1 ++ "?")], some e) := by
  simp [refreshParamsLoop, hmem, hw]

theorem refreshModesLoop_cons_err (wire : String → Except PyErr String)
    (m : SDLMode) (rest : List SDLMode) (st stE : List (String × PyVal))
    (tr trE : List Ev) (e : PyErr)
    (h : refreshParamsLoop wire m.modeName m.params st tr = (stE, trE, some e)) :
    refreshModesLoop wire (m :: rest) st tr = (stE, trE, some e) := by
  simp [refreshModesLoop, h]

theorem C1_amended_abort_state (prior₁ prior₂ : List (String × PyVal))
    (wire : String → Except PyErr String) (e : PyErr)
    (hfail : wire ":SYST:REMOTE:STATE?" = .error e) :
    sdlRefreshFrom prior₁ wire = sdlRefreshFrom prior₂ wire ∧
    (sdlRefreshFrom prior₁ wire).err = some e ∧
    (sdlRefreshFrom prior₁ wire).st = [] := by
  refine ⟨rfl, ?_⟩
  have hstep : refreshModesLoop wire sdlModes [] [] =
      ([], [Ev.query ":SYST:REMOTE:STATE?"], some e) := by
    apply refreshModesLoop_cons_err
    apply refreshParamsLoop_cons_err
    · rfl
    · exact hfail
  constructor
  · simp only [sdlRefreshFrom, hstep]
  · simp only [sdlRefreshFrom, hstep]

/-- Witness for the amended C1 at a concrete prior snapshot and wire. -/
theorem C1_amended_abort_state_witness :
    failWire ":SYST:REMOTE:STATE?" = .error PyErr.contactLost ∧
    (sdlRefreshFrom [("X", PyVal.i 5)] failWire =
        sdlRefreshFrom [] failWire ∧
      (sdlRefreshFrom [("X", PyVal.i 5)] failWire).err =
        some PyErr.contactLost ∧
      (sdlRefreshFrom [("X", PyVal.i 5)] failWire).st = []) :=
  ⟨rfl, C1_amended_abort_state [("X", PyVal.i 5)] [] failWire
    PyErr.contactLost rfl⟩

/-- On the concrete table, a flag pair is determined by its value command
and by its flag command alike. -/
theorem sdlPairs_inj : ∀ pc ∈ sdlFlagPairCmds, ∀ pc' ∈ sdlFlagPairCmds,
    (pc.1 = pc'.1 ∨ pc.2.1 = pc'.2.1) → pc = pc' := by decide

/-- On the concrete table, no pair's value command is a flag command. -/
theorem sdlPairs_val_ne_flag : ∀ pc ∈ sdlFlagPairCmds,
    ∀ pc' ∈ sdlFlagPairCmds, pc.1 ≠ pc'.2.1 := by decide

/-- On the concrete table, no parameter command of any mode coincides
with a flag command. -/
theorem sdlParams_ne_flag : ∀ m ∈ sdlModes, ∀ p ∈ m.params,
    ∀ pc ∈ sdlFlagPairCmds, (scpiCmds m.modeName p).1 ≠ pc.2.1 := by decide

/-- `:TRIGGER:SOURCE` is neither a flag-pair value nor a flag command. -/
theorem sdlPairs_trigger : ∀ pc ∈ sdlFlagPairCmds,
    pc.1 ≠ ":TRIGGER:SOURCE" ∧ pc.2.1 ≠ ":TRIGGER:SOURCE" := by decide

/-- A flagged parameter of the table contributes its pair to
`sdlFlagPairCmds`. -/
theorem sdlPairs_in_table {m : SDLMode} (hm : m ∈ sdlModes) {p : SDLParam}
    (hp : p ∈ m.params) {c1 : String}
    (hc1 : (scpiCmds m.modeName p).2 = some c1) :
    ((scpiCmds m.modeName p).1, c1, p.ptype) ∈ sdlFlagPairCmds := by
  apply List.mem_flatMap.2
  refine ⟨m, hm, ?_⟩
  apply List.mem_filterMap.2
  refine ⟨p, hp, ?_⟩
  have hpair : scpiCmds m.modeName p = ((scpiCmds m.modeName p).1, some c1) := by
    rw [← hc1]
  rw [hpair]

/-- `aset` never removes a present key. -/
theorem alookup_aset_isSome {α : Type} (k k' : String) (v : α)
    (l : List (String × α)) (h : (alookup k l).isSome = true) :
    (alookup k (aset k' v l)).isSome = true := by
  by_cases hk : k' = k
  · subst hk; simp [alookup_aset_self]
  · rwa [alookup_aset_ne k' k v hk]

/-- A value produced by the `refresh` conversion that is not "nonzero" in
Python's sense is the numeric sentinel. -/
theorem convParam_zero (pt : Char) (s : String) (v : PyVal)
    (hc : convParam pt s = .ok v) (hz : pyNeZeroB v = false) : pyIsZero v := by
  unfold convParam at hc
  split at hc
  · cases hf : pyFloat s <;> rw [hf] at hc
    · cases hc
    · cases hc
      simpa [pyNeZeroB, pyIsZero] using hz
  · split at hc
    · cases hf : pyFloat s <;> rw [hf] at hc
      · cases hc
      · cases hc
        simpa [pyNeZeroB, pyIsZero] using hz
    · split at hc
      · cases hc
        simp [pyNeZeroB] at hz
      · cases hc

/-- Pair invariants only depend on trace membership, so they survive
trace extension. -/
theorem PairInv_mono (wire : String → Except PyErr String)
    (st : List (String × PyVal)) (tr tr' : List Ev)
    (hsub : ∀ e ∈ tr, e ∈ tr') (pc : String × String × Char)
    (h : PairInv wire st tr pc) : PairInv wire st tr' pc := by
  intro hflag
  obtain ⟨hzero, hcorr⟩ := h hflag
  exact ⟨hzero, fun resp v0 h1 h2 h3 => hsub _ (hcorr resp v0 h1 h2 h3)⟩

theorem AllPairInv_mono (wire : String → Except PyErr String)
    (st : List (String × PyVal)) (tr tr' : List Ev)
    (hsub : ∀ e ∈ tr, e ∈ tr')
    (h : AllPairInv wire st tr) : AllPairInv wire st tr' :=
  fun pc hpc => PairInv_mono wire st tr tr' hsub pc (h pc hpc)

theorem queryFloat_fst (wire : String → Except PyErr String) (cmd : String)
    (tr : List Ev) : (queryFloat wire cmd tr).1 = tr ++ [Ev.query cmd] := by
  unfold queryFloat
  cases wire cmd with
  | error e => rfl
  | ok s => cases h : pyFloat s <;> simp [h]

/-- The List-mode row read only appends to the trace. -/
theorem listReadLoop_trace_ext (wire : String → Except PyErr String) :
    ∀ (k i : Nat) (tr : List Ev), ∃ ext,
      (listReadLoop wire k i tr).1 = tr ++ ext := by
  intro k
  induction k with
  | zero => intro i tr; exact ⟨[], by simp [listReadLoop]⟩
  | succ k ih =>
    intro i tr
    simp only [listReadLoop, queryFloat_fst]
    cases ha : (queryFloat wire (":LIST:LEVEL? " ++ toString i) tr).2 with
    | error e => exact ⟨[Ev.query (":LIST:LEVEL? " ++ toString i)], rfl⟩
    | ok q1 =>
      cases hb : (queryFloat wire (":LIST:WIDTH? " ++ toString i)
          (tr ++ [Ev.query (":LIST:LEVEL? " ++ toString i)])).2 with
      | error e =>
        refine ⟨[Ev.query (":LIST:LEVEL? " ++ toString i),
          Ev.query (":LIST:WIDTH? " ++ toString i)], ?_⟩
        simp [hb]
      | ok q2 =>
        cases hc : (queryFloat wire (":LIST:SLEW? " ++ toString i)
            (tr ++ [Ev.query (":LIST:LEVEL? " ++ toString i),
              Ev.query (":LIST:WIDTH? " ++ toString i)])).2 with
        | error e =>
          refine ⟨[Ev.query (":LIST:LEVEL? " ++ toString i),
            Ev.query (":LIST:WIDTH? " ++ toString i),
            Ev.query (":LIST:SLEW? " ++ toString i)], ?_⟩
          simp [hc]
        | ok q3 =>
          obtain ⟨ext, hext⟩ := ih (i + 1)
            (tr ++ [Ev.query (":LIST:LEVEL? " ++ toString i),
              Ev.query (":LIST:WIDTH? " ++ toString i),
              Ev.query (":LIST:SLEW? " ++ toString i)])
          refine ⟨[Ev.query (":LIST:LEVEL? " ++ toString i),
            Ev.query (":LIST:WIDTH? " ++ toString i),
            Ev.query (":LIST:SLEW? " ++ toString i)] ++ ext, ?_⟩
          simp [hc, hext]

/-- `_update_list_mode_from_instrument` only appends to the trace. -/
theorem refreshListModeRead_trace_ext (wire : String → Except PyErr String)
    (st : List (String × PyVal)) (tr : List Ev) :
    ∃ ext, (refreshListModeRead wire st tr).1 = tr ++ ext := by
  unfold refreshListModeRead
  cases h : alookup ":LIST:STEP" st with
  | none => exact ⟨[], by simp⟩
  | some v =>
    cases v with
    | i n => exact listReadLoop_trace_ext wire n.toNat 1 tr
    | b bv => exact ⟨[], by simp⟩
    | f q => exact ⟨[], by simp⟩
    | s sv => exact ⟨[], by simp⟩

/-! Branch equations for `refreshParamsLoop`, used by the invariant
induction. -/

theorem rplCons_skip (wire : String → Except PyErr String) (mn : Option String)
    (p : SDLParam) (rest : List SDLParam) (st : List (String × PyVal))
    (tr : List Ev)
    (h : (alookup (scpiCmds mn p).1 st).isSome = true) :
    refreshParamsLoop wire mn (p :: rest) st tr =
      refreshParamsLoop wire mn rest st tr := by
  simp [refreshParamsLoop, h]

theorem rplCons_converr (wire : String → Except PyErr String)
    (mn : Option String) (p : SDLParam) (rest : List SDLParam)
    (st : List (String × PyVal)) (tr : List Ev) (resp : String) (e : PyErr)
    (hm : (alookup (scpiCmds mn p).1 st).isSome = false)
    (hw : wire ((scpiCmds mn p).1 ++ "?") = .ok resp)
    (hc : convParam p.ptype resp = .error e) :
    refreshParamsLoop wire mn (p :: rest) st tr =
      (st, tr ++ [Ev.query ((scpiCmds mn p).1 ++ "?")], some e) := by
  simp [refreshParamsLoop, hm, hw, hc]

theorem rplCons_noflag (wire : String → Except PyErr String)
    (mn : Option String) (p : SDLParam) (rest : List SDLParam)
    (st : List (String × PyVal)) (tr : List Ev) (resp : String) (v0 : PyVal)
    (hm : (alookup (scpiCmds mn p).1 st).isSome = false)
    (hw : wire ((scpiCmds mn p).1 ++ "?") = .ok resp)
    (hc : convParam p.ptype resp = .ok v0)
    (hf : (scpiCmds mn p).2 = none) :
    refreshParamsLoop wire mn (p :: rest) st tr =
      refreshParamsLoop wire mn rest (aset (scpiCmds mn p).1 v0 st)
        (tr ++ [Ev.query ((scpiCmds mn p).1 ++ "?")]) := by
  simp [refreshParamsLoop, hm, hw, hc, hf]

theorem rplCons_flag_wireerr (wire : String → Except PyErr String)
    (mn : Option String) (p : SDLParam) (rest : List SDLParam)
    (st : List (String × PyVal)) (tr : List Ev) (resp : String) (v0 : PyVal)
    (c1 : String) (e : PyErr)
    (hm : (alookup (scpiCmds mn p).1 st).isSome = false)
    (hw : wire ((scpiCmds mn p).1 ++ "?") = .ok resp)
    (hc : convParam p.ptype resp = .ok v0)
    (hf : (scpiCmds mn p).2 = some c1)
    (hw1 : wire (c1 ++ "?") = .error e) :
    refreshParamsLoop wire mn (p :: rest) st tr =
      (aset (scpiCmds mn p).1 v0 st,
        tr ++ [Ev.query ((scpiCmds mn p).1 ++ "?"), Ev.query (c1 ++ "?")],
        some e) := by
  simp [refreshParamsLoop, hm, hw, hc, hf, hw1]

theorem rplCons_flag_parseerr (wire : String → Except PyErr String)
    (mn : Option String) (p : SDLParam) (rest : List SDLParam)
    (st : List (String × PyVal)) (tr : List Ev) (resp : String) (v0 : PyVal)
    (c1 resp1 : String)
    (hm : (alookup (scpiCmds mn p).1 st).isSome = false)
    (hw : wire ((scpiCmds mn p).1 ++ "?") = .ok resp)
    (hc : convParam p.ptype resp = .ok v0)
    (hf : (scpiCmds mn p).2 = some c1)
    (hw1 : wire (c1 ++ "?") = .ok resp1)
    (hp1 : pyFloat resp1 = none) :
    refreshParamsLoop wire mn (p :: rest) st tr =
      (aset (scpiCmds mn p).1 v0 st,
        tr ++ [Ev.query ((scpiCmds mn p).1 ++ "?"), Ev.query (c1 ++ "?")],
        some PyErr.valueError) := by
  simp [refreshParamsLoop, hm, hw, hc, hf, hw1, hp1]

theorem rplCons_flag_nonzero (wire : String → Except PyErr String)
    (mn : Option String) (p : SDLParam) (rest : List SDLParam)
    (st : List (String × PyVal)) (tr : List Ev) (resp : String) (v0 : PyVal)
    (c1 resp1 : String) (q1v : ℚ)
    (hm : (alookup (scpiCmds mn p).1 st).isSome = false)
    (hw : wire ((scpiCmds mn p).1 ++ "?") = .ok resp)
    (hc : convParam p.ptype resp = .ok v0)
    (hf : (scpiCmds mn p).2 = some c1)
    (hw1 : wire (c1 ++ "?") = .ok resp1)
    (hp1 : pyFloat resp1 = some q1v)
    (hv1 : pyTrunc q1v ≠ 0) :
    refreshParamsLoop wire mn (p :: rest) st tr =
      refreshParamsLoop wire mn rest
        (aset c1 (PyVal.i (pyTrunc q1v)) (aset (scpiCmds mn p).1 v0 st))
        (tr ++ [Ev.query ((scpiCmds mn p).1 ++ "?"), Ev.query (c1 ++ "?")]) := by
  simp [refreshParamsLoop, hm, hw, hc, hf, hw1, hp1, hv1]

theorem rplCons_flag_zero_corr (wire : String → Except PyErr String)
    (mn : Option String) (p : SDLParam) (rest : List SDLParam)
    (st : List (String × PyVal)) (tr : List Ev) (resp : String) (v0 : PyVal)
    (c1 resp1 : String) (q1v : ℚ)
    (hm : (alookup (scpiCmds mn p).1 st).isSome = false)
    (hw : wire ((scpiCmds mn p).1 ++ "?") = .ok resp)
    (hc : convParam p.ptype resp = .ok v0)
    (hf : (scpiCmds mn p).2 = some c1)
    (hw1 : wire (c1 ++ "?") = .ok resp1)
    (hp1 : pyFloat resp1 = some q1v)
    (hv1 : pyTrunc q1v = 0)
    (hlook : alookup (scpiCmds mn p).1
        (aset c1 (PyVal.i (pyTrunc q1v)) (aset (scpiCmds mn p).1 v0 st)) =
        some v0)
    (hnz : pyNeZeroB v0 = true) :
    refreshParamsLoop wire mn (p :: rest) st tr =
      refreshParamsLoop wire mn rest
        (aset (scpiCmds mn p).1 (if p.ptype = 'f' then PyVal.f 0 else PyVal.i 0)
          (aset c1 (PyVal.i (pyTrunc q1v)) (aset (scpiCmds mn p).1 v0 st)))
        (tr ++ [Ev.query ((scpiCmds mn p).1 ++ "?"), Ev.query (c1 ++ "?"),
          Ev.raw ((scpiCmds mn p).1 ++ " 0")]) := by
  rw [hv1] at hlook
  simp [refreshParamsLoop, hm, hw, hc, hf, hw1, hp1, hv1, hlook, hnz]

theorem rplCons_flag_zero_nocorr (wire : String → Except PyErr String)
    (mn : Option String) (p : SDLParam) (rest : List SDLParam)
    (st : List (String × PyVal)) (tr : List Ev) (resp : String) (v0 : PyVal)
    (c1 resp1 : String) (q1v : ℚ)
    (hm : (alookup (scpiCmds mn p).1 st).isSome = false)
    (hw : wire ((scpiCmds mn p).1 ++ "?") = .ok resp)
    (hc : convParam p.ptype resp = .ok v0)
    (hf : (scpiCmds mn p).2 = some c1)
    (hw1 : wire (c1 ++ "?") = .ok resp1)
    (hp1 : pyFloat resp1 = some q1v)
    (hv1 : pyTrunc q1v = 0)
    (hlook : alookup (scpiCmds mn p).1
        (aset c1 (PyVal.i (pyTrunc q1v)) (aset (scpiCmds mn p).1 v0 st)) =
        some v0)
    (hnz : pyNeZeroB v0 = false) :
    refreshParamsLoop wire mn (p :: rest) st tr =
      refreshParamsLoop wire mn rest
        (aset c1 (PyVal.i (pyTrunc q1v)) (aset (scpiCmds mn p).1 v0 st))
        (tr ++ [Ev.query ((scpiCmds mn p).1 ++ "?"), Ev.query (c1 ++ "?")]) := by
  rw [hv1] at hlook
  simp [refreshParamsLoop, hm, hw, hc, hf, hw1, hp1, hv1, hlook, hnz]

/-- Adding an absent key that is not this pair's flag preserves the pair
invariant. -/
theorem PairInv_aset_val (wire : String → Except PyErr String)
    (st : List (String × PyVal)) (tr : List Ev) (pc : String × String × Char)
    (k : String) (v : PyVal) (hflag : k ≠ pc.2.1)
    (habs : alookup k st = none)
    (h : PairInv wire st tr pc) : PairInv wire (aset k v st) tr pc := by
  intro hf
  rw [alookup_aset_ne _ _ _ hflag] at hf
  obtain ⟨⟨w, hw, hz⟩, hcorr⟩ := h hf
  refine ⟨⟨w, ?_, hz⟩, hcorr⟩
  have hne : k ≠ pc.1 := by
    intro he
    rw [he, hw] at habs
    cases habs
  rw [alookup_aset_ne _ _ _ hne]
  exact hw

/-- Setting a key distinct from both commands of a pair preserves the
pair invariant. -/
theorem PairInv_aset_ne (wire : String → Except PyErr String)
    (st : List (String × PyVal)) (tr : List Ev) (pc : String × String × Char)
    (k : String) (v : PyVal) (hflag : k ≠ pc.2.1) (hval : k ≠ pc.1)
    (h : PairInv wire st tr pc) : PairInv wire (aset k v st) tr pc := by
  intro hf
  rw [alookup_aset_ne _ _ _ hflag] at hf
  obtain ⟨⟨w, hw, hz⟩, hcorr⟩ := h hf
  exact ⟨⟨w, by rw [alookup_aset_ne _ _ _ hval]; exact hw, hz⟩, hcorr⟩

/-- Setting a non-flag key preserves the key coupling. -/
theorem FlagKeysInv_aset (st : List (String × PyVal)) (k : String) (v : PyVal)
    (hflag : ∀ pc ∈ sdlFlagPairCmds, k ≠ pc.2.1)
    (h : FlagKeysInv st) : FlagKeysInv (aset k v st) := by
  intro pc hpc hf
  rw [alookup_aset_ne _ _ _ (hflag pc hpc)] at hf
  exact alookup_aset_isSome _ _ _ _ (h pc hpc hf)

/-- Setting a flag key whose value command is already present preserves
the key coupling. -/
theorem FlagKeysInv_aset_flag (st : List (String × PyVal)) (k : String)
    (v : PyVal) (OP : String × String × Char) (hOP : OP ∈ sdlFlagPairCmds)
    (hkOP : k = OP.2.1) (hval : (alookup OP.1 st).isSome = true)
    (h : FlagKeysInv st) : FlagKeysInv (aset k v st) := by
  intro pc hpc hf
  by_cases he : k = pc.2.1
  · have hpcOP : pc = OP :=
      sdlPairs_inj pc hpc OP hOP (Or.inr (by rw [← he, hkOP]))
    subst hpcOP
    have hne : k ≠ pc.1 := by
      intro hk
      exact sdlPairs_val_ne_flag pc hpc pc hpc (by rw [← hk, hkOP])
    rw [alookup_aset_ne _ _ _ hne]
    exact hval
  · rw [alookup_aset_ne _ _ _ he] at hf
    exact alookup_aset_isSome _ _ _ _ (h pc hpc hf)

/-- The invariant induction over the parameter loop of `refresh`: if the
parameters processed are drawn from the descriptor table (their commands
are never flag commands, and each flagged command contributes its pair to
`sdlFlagPairCmds`), then a loop that completes without an exception
preserves the key coupling and all pair invariants. -/
theorem refreshParamsLoop_inv (wire : String → Except PyErr String)
    (mn : Option String) :
    ∀ (ps : List SDLParam) (st : List (String × PyVal)) (tr : List Ev),
      (∀ p ∈ ps, ∀ pc ∈ sdlFlagPairCmds, (scpiCmds mn p).1 ≠ pc.2.1) →
      (∀ p ∈ ps, ∀ c1, (scpiCmds mn p).2 = some c1 →
         ((scpiCmds mn p).1, c1, p.ptype) ∈ sdlFlagPairCmds) →
      FlagKeysInv st → AllPairInv wire st tr →
      (refreshParamsLoop wire mn ps st tr).2.2 = none →
      FlagKeysInv (refreshParamsLoop wire mn ps st tr).1 ∧
        AllPairInv wire (refreshParamsLoop wire mn ps st tr).1
          (refreshParamsLoop wire mn ps st tr).2.1 := by
  intro ps
  induction ps with
  | nil =>
    intro st tr _ _ hk ha _
    exact ⟨hk, ha⟩
  | cons p rest ih =>
    intro st tr hval hmem hk ha herr
    have hval' := fun p' hp' => hval p' (List.mem_cons_of_mem _ hp')
    have hmem' := fun p' hp' => hmem p' (List.mem_cons_of_mem _ hp')
    have hvalp := hval p (List.mem_cons_self _ _)
    by_cases hskip : (alookup (scpiCmds mn p).1 st).isSome = true
    · rw [rplCons_skip wire mn p rest st tr hskip] at herr ⊢
      exact ih st tr hval' hmem' hk ha herr
    · have hm : (alookup (scpiCmds mn p).1 st).isSome = false := by
        simpa using hskip
      have habs : alookup (scpiCmds mn p).1 st = none := by
        cases hl : alookup (scpiCmds mn p).1 st with
        | none => rfl
        | some w => rw [hl] at hm; cases hm
      cases hw : wire ((scpiCmds mn p).1 ++ "?") with
      | error e =>
        rw [refreshParamsLoop_cons_err wire mn p rest st tr e hm hw] at herr
        cases herr
      | ok resp =>
        cases hc : convParam p.ptype resp with
        | error e =>
          rw [rplCons_converr wire mn p rest st tr resp e hm hw hc] at herr
          cases herr
        | ok v0 =>
          have hk1 : FlagKeysInv (aset (scpiCmds mn p).1 v0 st) :=
            FlagKeysInv_aset st _ v0 hvalp hk
          have ha1 : AllPairInv wire (aset (scpiCmds mn p).1 v0 st) tr :=
            fun pc hpc =>
              PairInv_aset_val wire st tr pc _ v0 (hvalp pc hpc) habs (ha pc hpc)
          cases hf : (scpiCmds mn p).2 with
          | none =>
            rw [rplCons_noflag wire mn p rest st tr resp v0 hm hw hc hf]
              at herr ⊢
            refine ih _ _ hval' hmem' hk1 ?_ herr
            exact AllPairInv_mono wire _ tr _
              (fun e he => List.mem_append_left _ he) ha1
          | some c1 =>
            have hOP := hmem p (List.mem_cons_self _ _) c1 hf
            have hc0c1 : (scpiCmds mn p).1 ≠ c1 :=
              sdlPairs_val_ne_flag _ hOP _ hOP
            have hc1abs : alookup c1 st = none := by
              cases hl : alookup c1 st with
              | none => rfl
              | some w =>
                exfalso
                have hcpl := hk _ hOP (by simp [hl])
                rw [habs] at hcpl
                cases hcpl
            cases hw1 : wire (c1 ++ "?") with
            | error e =>
              rw [rplCons_flag_wireerr wire mn p rest st tr resp v0 c1 e
                hm hw hc hf hw1] at herr
              cases herr
            | ok resp1 =>
              cases hp1 : pyFloat resp1 with
              | none =>
                rw [rplCons_flag_parseerr wire mn p rest st tr resp v0 c1
                  resp1 hm hw hc hf hw1 hp1] at herr
                cases herr
              | some q1v =>
                have hlook : alookup (scpiCmds mn p).1
                    (aset c1 (PyVal.i (pyTrunc q1v))
                      (aset (scpiCmds mn p).1 v0 st)) = some v0 := by
                  rw [alookup_aset_ne _ _ _ (Ne.symm hc0c1),
                    alookup_aset_self]
                have hk2 : FlagKeysInv (aset c1 (PyVal.i (pyTrunc q1v))
                    (aset (scpiCmds mn p).1 v0 st)) := by
                  apply FlagKeysInv_aset_flag _ _ _
                    ((scpiCmds mn p).1, c1, p.ptype) hOP rfl ?_ hk1
                  rw [alookup_aset_self]
                  rfl
                have ha2base : ∀ pc ∈ sdlFlagPairCmds,
                    pc ≠ ((scpiCmds mn p).1, c1, p.ptype) →
                    PairInv wire (aset c1 (PyVal.i (pyTrunc q1v))
                      (aset (scpiCmds mn p).1 v0 st)) tr pc := by
                  intro pc hpc hne
                  have hflagne : c1 ≠ pc.2.1 := by
                    intro he
                    exact hne (sdlPairs_inj pc hpc _ hOP (Or.inr he.symm))
                  have hvalne : c1 ≠ pc.1 :=
                    Ne.symm (sdlPairs_val_ne_flag pc hpc _ hOP)
                  exact PairInv_aset_ne wire _ tr pc c1 _ hflagne hvalne
                    (ha1 pc hpc)
                by_cases hz : pyTrunc q1v = 0
                · by_cases hnz : pyNeZeroB v0 = true
                  · -- forced to the sentinel, corrective write issued
                    rw [rplCons_flag_zero_corr wire mn p rest st tr resp v0 c1
                      resp1 q1v hm hw hc hf hw1 hp1 hz hlook hnz] at herr ⊢
                    refine ih _ _ hval' hmem' ?_ ?_ herr
                    · exact FlagKeysInv_aset _ _ _ hvalp hk2
                    · intro pc hpc
                      by_cases hpe : pc = ((scpiCmds mn p).1, c1, p.ptype)
                      · subst hpe
                        intro _
                        constructor
                        · refine ⟨(if p.ptype = 'f' then PyVal.f 0 else PyVal.i 0),
                            alookup_aset_self _ _ _, ?_⟩
                          by_cases hpt : p.ptype = 'f' <;> simp [hpt, pyIsZero]
                        · intro resp' v0' h1 h2 h3
                          simp only [List.mem_append, List.mem_singleton,
                            List.mem_cons]
                          right
                          simp
                      · have h1 := ha2base pc hpc hpe
                        have hvalne2 : (scpiCmds mn p).1 ≠ pc.1 := by
                          intro he
                          exact hpe (sdlPairs_inj pc hpc _ hOP (Or.inl he.symm))
                        have h2 : PairInv wire
                            (aset (scpiCmds mn p).1
                              (if p.ptype = 'f' then PyVal.f 0 else PyVal.i 0)
                              (aset c1 (PyVal.i (pyTrunc q1v))
                                (aset (scpiCmds mn p).1 v0 st))) tr pc :=
                          PairInv_aset_ne wire _ tr pc _ _
                            (hvalp pc hpc) hvalne2 h1
                        exact PairInv_mono wire _ tr _
                          (fun e he => List.mem_append_left _ he) pc h2
                  · -- the read value is already the sentinel
                    have hnzf : pyNeZeroB v0 = false := by
                      simpa using hnz
                    rw [rplCons_flag_zero_nocorr wire mn p rest st tr resp v0 c1
                      resp1 q1v hm hw hc hf hw1 hp1 hz hlook hnzf] at herr ⊢
                    refine ih _ _ hval' hmem' hk2 ?_ herr
                    intro pc hpc
                    by_cases hpe : pc = ((scpiCmds mn p).1, c1, p.ptype)
                    · subst hpe
                      intro _
                      constructor
                      · exact ⟨v0, hlook, convParam_zero _ _ _ hc hnzf⟩
                      · intro resp' v0' h1 h2 h3
                        rw [hw] at h1
                        cases h1
                        rw [hc] at h2
                        cases h2
                        rw [hnzf] at h3
                        cases h3
                    · exact PairInv_mono wire _ tr _
                        (fun e he => List.mem_append_left _ he) pc
                        (ha2base pc hpc hpe)
                · -- flag is truthy: nothing forced
                  rw [rplCons_flag_nonzero wire mn p rest st tr resp v0 c1
                    resp1 q1v hm hw hc hf hw1 hp1 hz] at herr ⊢
                  refine ih _ _ hval' hmem' hk2 ?_ herr
                  intro pc hpc
                  by_cases hpe : pc = ((scpiCmds mn p).1, c1, p.ptype)
                  · subst hpe
                    intro hflag
                    exfalso
                    rw [alookup_aset_self] at hflag
                    have : pyTrunc q1v = 0 := by
                      simpa using hflag
                    exact hz this
                  · exact PairInv_mono wire _ tr _
                      (fun e he => List.mem_append_left _ he) pc
                      (ha2base pc hpc hpe)

/-- The invariant carries over the outer mode loop of `refresh`. -/
theorem refreshModesLoop_inv (wire : String → Except PyErr String) :
    ∀ (ms : List SDLMode), (∀ m ∈ ms, m ∈ sdlModes) →
      ∀ (st : List (String × PyVal)) (tr : List Ev),
      FlagKeysInv st → AllPairInv wire st tr →
      (refreshModesLoop wire ms st tr).2.2 = none →
      FlagKeysInv (refreshModesLoop wire ms st tr).1 ∧
        AllPairInv wire (refreshModesLoop wire ms st tr).1
          (refreshModesLoop wire ms st tr).2.1 := by
  intro ms
  induction ms with
  | nil =>
    intro _ st tr hk ha _
    exact ⟨hk, ha⟩
  | cons m rest ih =>
    intro hms st tr hk ha herr
    have hmm := hms m (List.mem_cons_self _ _)
    simp only [refreshModesLoop] at herr ⊢
    cases hr : (refreshParamsLoop wire m.modeName m.params st tr).2.2 with
    | some e =>
      rw [hr] at herr
      have herr' : (refreshParamsLoop wire m.modeName m.params st tr).2.2 =
          none := herr
      rw [hr] at herr'
      cases herr'
    | none =>
      rw [hr] at herr
      have herr' : (refreshModesLoop wire rest
          (refreshParamsLoop wire m.modeName m.params st tr).1
          (refreshParamsLoop wire m.modeName m.params st tr).2.1).2.2 =
          none := herr
      obtain ⟨hk1, ha1⟩ := refreshParamsLoop_inv wire m.modeName m.params st tr
        (fun p hp => sdlParams_ne_flag m hmm p hp)
        (fun p hp c1 hc1 => sdlPairs_in_table hmm hp hc1)
        hk ha hr
      exact ih (fun m' hm' => hms m' (List.mem_cons_of_mem _ hm')) _ _
        hk1 ha1 herr'

theorem sdlRefreshFrom_eq_err1 (wire : String → Except PyErr String)
    (e : PyErr) (h : (refreshModesLoop wire sdlModes [] []).2.2 = some e) :
    sdlRefreshFrom [] wire =
      ⟨(refreshModesLoop wire sdlModes [] []).1,
        (refreshModesLoop wire sdlModes [] []).2.1, some e⟩ := by
  simp only [sdlRefreshFrom, h]

theorem sdlRefreshFrom_eq_err2 (wire : String → Except PyErr String)
    (e : PyErr) (h1 : (refreshModesLoop wire sdlModes [] []).2.2 = none)
    (h2 : (refreshListModeRead wire (refreshModesLoop wire sdlModes [] []).1
        (refreshModesLoop wire sdlModes [] []).2.1).2 = some e) :
    sdlRefreshFrom [] wire =
      ⟨(refreshModesLoop wire sdlModes [] []).1,
        (refreshListModeRead wire (refreshModesLoop wire sdlModes [] []).1
          (refreshModesLoop wire sdlModes [] []).2.1).1, some e⟩ := by
  simp only [sdlRefreshFrom, h1, h2]

theorem sdlRefreshFrom_eq_ok (wire : String → Except PyErr String)
    (h1 : (refreshModesLoop wire sdlModes [] []).2.2 = none)
    (h2 : (refreshListModeRead wire (refreshModesLoop wire sdlModes [] []).1
        (refreshModesLoop wire sdlModes [] []).2.1).2 = none) :
    sdlRefreshFrom [] wire =
      ⟨(refreshTriggerFix (refreshModesLoop wire sdlModes [] []).1
          (refreshListModeRead wire (refreshModesLoop wire sdlModes [] []).1
            (refreshModesLoop wire sdlModes [] []).2.1).1).1,
        (refreshTriggerFix (refreshModesLoop wire sdlModes [] []).1
          (refreshListModeRead wire (refreshModesLoop wire sdlModes [] []).1
            (refreshModesLoop wire sdlModes [] []).2.1).1).2.1,
        (refreshTriggerFix (refreshModesLoop wire sdlModes [] []).1
          (refreshListModeRead wire (refreshModesLoop wire sdlModes [] []).1
            (refreshModesLoop wire sdlModes [] []).2.1).1).2.2⟩ := by
  simp only [sdlRefreshFrom, h1, h2]

theorem refreshTriggerFix_manual (st : List (String × PyVal)) (tr : List Ev)
    (v : PyVal) (hts : alookup ":TRIGGER:SOURCE" st = some v)
    (hman : v = PyVal.s "MANUAL") :
    refreshTriggerFix st tr =
      (aset ":TRIGGER:SOURCE" (PyVal.s "BUS") st,
        tr ++ [sdlUpdateOneParamEv ":TRIGGER:SOURCE" (PyVal.s "BUS")], none) := by
  subst hman
  simp [refreshTriggerFix, hts, updateParamStateAndInst, alookup_aset_self]

theorem refreshTriggerFix_nonmanual (st : List (String × PyVal)) (tr : List Ev)
    (v : PyVal) (hts : alookup ":TRIGGER:SOURCE" st = some v)
    (hman : ¬v = PyVal.s "MANUAL") :
    refreshTriggerFix st tr = (st, tr, none) := by
  simp [refreshTriggerFix, hts, hman]

/-- After a `refresh()` that completed without raising, every flag pair
satisfies its invariant over the produced snapshot and wire trace. -/
theorem sdlRefreshFrom_inv (wire : String → Except PyErr String)
    (herr : (sdlRefreshFrom [] wire).err = none) :
    AllPairInv wire (sdlRefreshFrom [] wire).st
      (sdlRefreshFrom [] wire).trace := by
  have hk0 : FlagKeysInv ([] : List (String × PyVal)) := by
    intro pc hpc h
    simp [alookup] at h
  have ha0 : AllPairInv wire [] [] := by
    intro pc hpc hf
    simp [alookup] at hf
  cases hrm : (refreshModesLoop wire sdlModes [] []).2.2 with
  | some e =>
    rw [sdlRefreshFrom_eq_err1 wire e hrm] at herr
    cases herr
  | none =>
    obtain ⟨hk1, ha1⟩ := refreshModesLoop_inv wire sdlModes (fun _ h => h)
      [] [] hk0 ha0 hrm
    obtain ⟨ext, hext⟩ := refreshListModeRead_trace_ext wire
      (refreshModesLoop wire sdlModes [] []).1
      (refreshModesLoop wire sdlModes [] []).2.1
    cases hlr : (refreshListModeRead wire
        (refreshModesLoop wire sdlModes [] []).1
        (refreshModesLoop wire sdlModes [] []).2.1).2 with
    | some e =>
      rw [sdlRefreshFrom_eq_err2 wire e hrm hlr] at herr
      cases herr
    | none =>
      have ha2 : AllPairInv wire (refreshModesLoop wire sdlModes [] []).1
          (refreshListModeRead wire (refreshModesLoop wire sdlModes [] []).1
            (refreshModesLoop wire sdlModes [] []).2.1).1 := by
        apply AllPairInv_mono wire _ _ _ ?_ ha1
        intro e he
        rw [hext]
        exact List.mem_append_left _ he
      rw [sdlRefreshFrom_eq_ok wire hrm hlr] at herr ⊢
      cases hts : alookup ":TRIGGER:SOURCE"
          (refreshModesLoop wire sdlModes [] []).1 with
      | none =>
        exfalso
        simp only [refreshTriggerFix, hts] at herr
        cases herr
      | some v =>
        by_cases hman : v = PyVal.s "MANUAL"
        · rw [refreshTriggerFix_manual _ _ v hts hman]
          intro pc hpc
          have h1 : PairInv wire
              (aset ":TRIGGER:SOURCE" (PyVal.s "BUS")
                (refreshModesLoop wire sdlModes [] []).1)
              (refreshListModeRead wire
                (refreshModesLoop wire sdlModes [] []).1
                (refreshModesLoop wire sdlModes [] []).2.1).1 pc :=
            PairInv_aset_ne wire _ _ pc _ _
              (Ne.symm (sdlPairs_trigger pc hpc).2)
              (Ne.symm (sdlPairs_trigger pc hpc).1) (ha2 pc hpc)
          exact PairInv_mono wire _ _ _
            (fun e he => List.mem_append_left _ he) pc h1
        · rw [refreshTriggerFix_nonmanual _ _ v hts hman]
          exact ha2

/-- **C4** (inactive-implies-sentinel): for every wire behaviour, in a
`refresh()` of the SDL1000 synchronizer that completes without raising,
every parameter with an associated "active" boolean flag whose flag read
back false (`0`) has its stored canonical value equal to the zero/inactive
sentinel (`0` or `0.0`); and when the wire had returned a nonzero value
for the parameter, the corrective write `'{param0} 0'` appears in the wire
trace. -/
theorem C4_inactive_implies_sentinel (wire : String → Except PyErr String) :
    refreshFlagInvariantCheck wire = true := by
  simp only [refreshFlagInvariantCheck]
  cases herr : (sdlRefreshFrom [] wire).err with
  | some e => rfl
  | none =>
    have hinv := sdlRefreshFrom_inv wire herr
    have hall : sdlFlagPairCmds.all (fun pc =>
        if alookup pc.2.1 (sdlRefreshFrom [] wire).st = some (PyVal.i 0) then
          ((alookup pc.1 (sdlRefreshFrom [] wire).st).any
            (fun v => decide (pyIsZero v))) &&
          (match wire (pc.1 ++ "?") with
           | .ok resp =>
               match convParam pc.2.2 resp with
               | .ok v0 =>
                   !pyNeZeroB v0 ||
                     decide (Ev.raw (pc.1 ++ " 0") ∈
                       (sdlRefreshFrom [] wire).trace)
               | .error _ => true
           | .error _ => true)
        else true) = true := by
      apply List.all_eq_true.2
      intro pc hpc
      by_cases hflag : alookup pc.2.1 (sdlRefreshFrom [] wire).st =
          some (PyVal.i 0)
      · obtain ⟨⟨v, hv, hz⟩, hcorr⟩ := hinv pc hpc hflag
        rw [if_pos hflag]
        rw [Bool.and_eq_true]
        constructor
        · rw [hv]
          simpa [Option.any] using decide_eq_true hz
        · cases hwq : wire (pc.1 ++ "?") with
          | error e => rfl
          | ok resp =>
            have hok : (match convParam pc.2.2 resp with
                | Except.ok v0 =>
                    !pyNeZeroB v0 ||
                      decide (Ev.raw (pc.1 ++ " 0") ∈
                        (sdlRefreshFrom [] wire).trace)
                | Except.error _ => true) = true := by
              cases hcv : convParam pc.2.2 resp with
              | error e => rfl
              | ok v0 =>
                by_cases hnz : pyNeZeroB v0 = true
                · have hm := hcorr resp v0 hwq hcv hnz
                  simp [hnz, decide_eq_true hm]
                · simp [Bool.not_eq_true] at hnz
                  simp [hnz]
            exact hok
      · rw [if_neg hflag]
    exact hall

/-- Sanity: the modelled `refresh()` can complete without raising, so the
C4 check is not vacuous. -/
theorem sdlRefresh_allZero_ok : (sdlRefreshFrom [] allZeroWire).err = none := by
  decide

/-- **C5 counterexample**: the claim that, for every model and family, the
read→write and write→display tables are bijections between the same token
sets fails at (model `SDM3055`, family AC current, token `200UA`): the
display tables know the token (`'200 µA' ↦ '200UA'`) but no entry of
`_RANGE_IAC_SCPI_READ_TO_WRITE['SDM3055']` produces it, so a `refresh`
read-back of that range raises `KeyError` instead of round-tripping. -/
theorem C5_counterexample :
    range_iac_disp_to_scpi_write "SDM3055" "200 µA" = some "200UA" ∧
    range_iac_scpi_write_to_disp "SDM3055" "200UA" = some "200 µA" ∧
    "200UA" ∉
      ((alookup "SDM3055" RANGE_IAC_SCPI_READ_TO_WRITE).getD []).map
        Prod.snd := by
  refine ⟨rfl, rfl, ?_⟩
  decide

/-- **C5 (amended)**: for every supported model and quantity family, each
conversion table is injective, the display→write table is the exact
inverse of write→display (both round-trips are the identity), and every
write token in the read table's range has a display label; the read-range
and display-domain token sets coincide for every (model, family) pair
except AC current on the SDM3055, whose display tables carry the tokens
`200UA` and `2MA` with no wire-read entry. -/
theorem C5_amended_table_bijections :
    familyTablesOk RANGE_VAC_SCPI_READ_TO_WRITE RANGE_VAC_SCPI_WRITE_TO_DISP
      none = true ∧
    familyTablesOk RANGE_VDC_SCPI_READ_TO_WRITE RANGE_VDC_SCPI_WRITE_TO_DISP
      none = true ∧
    familyTablesOk RANGE_IAC_SCPI_READ_TO_WRITE RANGE_IAC_SCPI_WRITE_TO_DISP
      (some "SDM3055") = true ∧
    familyTablesOk RANGE_IDC_SCPI_READ_TO_WRITE RANGE_IDC_SCPI_WRITE_TO_DISP
      none = true ∧
    familyTablesOk RANGE_R_SCPI_READ_TO_WRITE RANGE_R_SCPI_WRITE_TO_DISP
      none = true ∧
    familyTablesOk RANGE_C_SCPI_READ_TO_WRITE RANGE_C_SCPI_WRITE_TO_DISP
      none = true := by
  refine ⟨?_, ?_, ?_, ?_, ?_, ?_⟩ <;> decide

theorem diff_events_no_reads (prev l : List (String × PyVal)) (i : Nat) :
    (((sdmUpdateInstrumentDiff prev l).map (fun e => (i, e))).filter
      (fun p => p.2 == Ev.query "READ?")) = [] := by
  rw [sdmUpdateInstrumentDiff_spec]
  rw [List.filter_eq_nil_iff]
  intro p hp
  obtain ⟨e, he, rfl⟩ := List.mem_map.1 hp
  obtain ⟨kv, _, rfl⟩ := List.mem_map.1 he
  simp [sdmUpdateOneParamEv]

theorem mem_tag {l : List Ev} {i j : Nat} {ev : Ev}
    (h : (i, ev) ∈ l.map (fun e => (j, e))) : i = j := by
  obtain ⟨e, _, heq⟩ := List.mem_map.1 h
  injection heq with h1 _
  exact h1.symm

theorem sdmPass_cons_skip (wire : String → Except PyErr String)
    (enabled : Nat → Bool) (ltd : Nat → List (String × PyVal))
    (j : Nat) (rest : List Nat) (prev : List (String × PyVal))
    (hskip : (decide (j ≠ 1) && !(enabled j)) = true) :
    sdmMeasurementPass wire enabled ltd (j :: rest) prev =
      sdmMeasurementPass wire enabled ltd rest prev := by
  simp only [sdmMeasurementPass, if_pos hskip]

theorem sdmPass_cons_ok (wire : String → Except PyErr String)
    (enabled : Nat → Bool) (ltd : Nat → List (String × PyVal))
    (j : Nat) (rest : List Nat) (prev : List (String × PyVal))
    (s : String) (q : ℚ)
    (hskip : ¬(decide (j ≠ 1) && !(enabled j)) = true)
    (hw : wire "READ?" = .ok s) (hp : pyFloat s = some q) :
    sdmMeasurementPass wire enabled ltd (j :: rest) prev =
      (((sdmUpdateInstrumentDiff prev (ltd j)).map (fun e => (j, e))) ++
          [(j, Ev.query "READ?")] ++
          (sdmMeasurementPass wire enabled ltd rest (ltd j)).1,
        (sdmMeasurementPass wire enabled ltd rest (ltd j)).2.1,
        (sdmMeasurementPass wire enabled ltd rest (ltd j)).2.2) := by
  simp only [sdmMeasurementPass, if_neg hskip, hw, hp]

/-- Every slot-tagged event of a pass belongs to a processed slot. -/
theorem sdmPass_event_slots (wire : String → Except PyErr String)
    (enabled : Nat → Bool) (ltd : Nat → List (String × PyVal)) :
    ∀ (slots : List Nat) (prev : List (String × PyVal)) (i : Nat) (ev : Ev),
      (i, ev) ∈ (sdmMeasurementPass wire enabled ltd slots prev).1 →
      i ∈ slots ∧ (i = 1 ∨ enabled i = true) := by
  intro slots
  induction slots with
  | nil => intro prev i ev h; simp [sdmMeasurementPass] at h
  | cons j rest ih =>
    intro prev i ev h
    by_cases hskip : (decide (j ≠ 1) && !(enabled j)) = true
    · rw [sdmPass_cons_skip wire enabled ltd j rest prev hskip] at h
      obtain ⟨hm, hp⟩ := ih prev i ev h
      exact ⟨List.mem_cons_of_mem _ hm, hp⟩
    · have hproc : j = 1 ∨ enabled j = true := by
        by_cases hj : j = 1
        · exact Or.inl hj
        · right
          by_cases he : enabled j = true
          · exact he
          · exact absurd (by simp [hj, he]) hskip
      have hsolve : i = j →
          i ∈ j :: rest ∧ (i = 1 ∨ enabled i = true) := by
        intro hij
        subst hij
        exact ⟨List.mem_cons_self _ _, hproc⟩
      cases hw : wire "READ?" with
      | error e =>
        rw [show sdmMeasurementPass wire enabled ltd (j :: rest) prev =
            (((sdmUpdateInstrumentDiff prev (ltd j)).map (fun e' => (j, e'))) ++
              [(j, Ev.query "READ?")], ltd j, some e) from by
              simp only [sdmMeasurementPass, if_neg hskip, hw]] at h
        rcases List.mem_append.1 h with hm | hm
        · exact hsolve (mem_tag hm)
        · simp only [List.mem_singleton] at hm
          injection hm with h1 _
          exact hsolve h1
      | ok s =>
        cases hp : pyFloat s with
        | none =>
          rw [show sdmMeasurementPass wire enabled ltd (j :: rest) prev =
              (((sdmUpdateInstrumentDiff prev (ltd j)).map
                  (fun e' => (j, e'))) ++
                [(j, Ev.query "READ?")], ltd j, some PyErr.valueError) from by
                simp only [sdmMeasurementPass, if_neg hskip, hw, hp]] at h
          rcases List.mem_append.1 h with hm | hm
          · exact hsolve (mem_tag hm)
          · simp only [List.mem_singleton] at hm
            injection hm with h1 _
            exact hsolve h1
        | some q =>
          rw [sdmPass_cons_ok wire enabled ltd j rest prev s q hskip hw hp]
            at h
          rcases List.mem_append.1 h with hm | hm
          · rcases List.mem_append.1 hm with hm' | hm'
            · exact hsolve (mem_tag hm')
            · simp only [List.mem_singleton] at hm'
              injection hm' with h1 _
              exact hsolve h1
          · obtain ⟨hmem, hpr⟩ := ih (ltd j) i ev hm
            exact ⟨List.mem_cons_of_mem _ hmem, hpr⟩

/-- With a parsable `READ?` response, a pass issues exactly one
measurement read per processed slot. -/
theorem sdmPass_read_count (wire : String → Except PyErr String)
    (enabled : Nat → Bool) (ltd : Nat → List (String × PyVal))
    (s : String) (q : ℚ)
    (hw : wire "READ?" = .ok s) (hp : pyFloat s = some q) :
    ∀ (slots : List Nat) (prev : List (String × PyVal)),
      (((sdmMeasurementPass wire enabled ltd slots prev).1).filter
        (fun p => p.2 == Ev.query "READ?")).length =
      (slots.filter (fun i => i == 1 || enabled i)).length := by
  intro slots
  induction slots with
  | nil => intro prev; simp [sdmMeasurementPass]
  | cons j rest ih =>
    intro prev
    by_cases hskip : (decide (j ≠ 1) && !(enabled j)) = true
    · have hcond : (j == 1 || enabled j) = false := by
        rw [Bool.and_eq_true] at hskip
        obtain ⟨h1, h2⟩ := hskip
        simp at h1 h2
        simp [h1, h2]
      rw [sdmPass_cons_skip wire enabled ltd j rest prev hskip]
      rw [List.filter_cons]
      simp only [hcond]
      exact ih prev
    · have hcond : (j == 1 || enabled j) = true := by
        by_cases hj : j = 1
        · simp [hj]
        · by_cases he : enabled j = true
          · simp [he]
          · exact absurd (by simp [hj, he]) hskip
      rw [sdmPass_cons_ok wire enabled ltd j rest prev s q hskip hw hp]
      rw [List.filter_cons]
      simp only [hcond, if_true]
      simp only [List.filter_append, List.length_append,
        diff_events_no_reads]
      simp [ih (ltd j)]
      omega

/-- **C6** (multi-set batching skips disabled slots): in one polling pass
of the SDM3000 `_update_measurements_and_triggers` over slots 1..4 (with a
parsable `READ?` response), a slot with an unchecked `Enable` flag (slots
2..4; slot 1 has no such flag) contributes no wire traffic at all — no
parameter write and no measurement read — and when exactly one of slots
2..4 is enabled (i.e. 2 of the 4 slots are live), the pass issues exactly
2 `READ?` measurement reads. -/
theorem C6_disabled_slots_no_traffic (wire : String → Except PyErr String)
    (enabled : Nat → Bool) (ltd : Nat → List (String × PyVal))
    (prev : List (String × PyVal)) (s : String) (q : ℚ)
    (hw : wire "READ?" = .ok s) (hp : pyFloat s = some q) :
    (∀ i ∈ [2, 3, 4], enabled i = false →
       ∀ ev, (i, ev) ∉ (sdmUpdateMeasurementsPass wire enabled ltd prev).1) ∧
    (([2, 3, 4].filter (fun i => enabled i)).length = 1 →
      (((sdmUpdateMeasurementsPass wire enabled ltd prev).1).filter
        (fun p => p.2 == Ev.query "READ?")).length = 2) := by
  constructor
  · intro i hi hdis ev hmem
    obtain ⟨_, hproc⟩ := sdmPass_event_slots wire enabled ltd
      [1, 2, 3, 4] prev i ev hmem
    rcases hproc with h1 | h2
    · subst h1
      simp at hi
    · rw [hdis] at h2
      cases h2
  · intro hlen
    rw [show (sdmUpdateMeasurementsPass wire enabled ltd prev).1 =
        (sdmMeasurementPass wire enabled ltd [1, 2, 3, 4] prev).1 from rfl]
    rw [sdmPass_read_count wire enabled ltd s q hw hp]
    cases h2 : enabled 2 <;> cases h3 : enabled 3 <;> cases h4 : enabled 4 <;>
      simp [List.filter, h2, h3, h4] at hlen ⊢

/-- Witness for C6: slot 2 enabled, slots 3 and 4 disabled, a wire that
answers `0` to every query: the pass reads exactly twice and the disabled
slots stay silent. -/
theorem C6_disabled_slots_no_traffic_witness :
    ((fun _ => Except.ok "0") : String → Except PyErr String) "READ?" =
        .ok "0" ∧
    pyFloat "0" = some ((0 : Nat) : ℚ) ∧
    (∀ i ∈ [2, 3, 4], (fun j => j == 2) i = false →
       ∀ ev, (i, ev) ∉ (sdmUpdateMeasurementsPass (fun _ => Except.ok "0")
         (fun j => j == 2) (fun _ => []) []).1) ∧
    (([2, 3, 4].filter (fun i => (fun j => j == 2) i)).length = 1 →
      (((sdmUpdateMeasurementsPass (fun _ => Except.ok "0")
          (fun j => j == 2) (fun _ => []) []).1).filter
        (fun p => p.2 == Ev.query "READ?")).length = 2) :=
  ⟨rfl, rfl,
   (C6_disabled_slots_no_traffic (fun _ => Except.ok "0") (fun j => j == 2)
     (fun _ => []) [] "0" ((0 : Nat) : ℚ) rfl rfl).1,
   (C6_disabled_slots_no_traffic (fun _ => Except.ok "0") (fun j => j == 2)
     (fun _ => []) [] "0" ((0 : Nat) : ℚ) rfl rfl).2⟩

/-- **C7** (stop on step boundary): with an `steps`-step list sequence
running in step `k` since `t0`, the trigger click at `t1` (the stop
request) only arms `stopping` — the sequence keeps running and reporting
step `k`; a heartbeat at any `t2` before step `k`'s width has elapsed
changes nothing; and the first heartbeat `t3` at or past the boundary
clears `running` with the reported step index still `k` (the internal
counter moves on to `(k+1) % steps`, but the paused display derivation
`(step_num-1) % steps` maps it back to `k`). -/
theorem C7_stop_on_boundary (widths : List Int) (steps k : Nat)
    (t0 t1 t2 t3 : Int)
    (hk : k < steps) (hlen : widths.length = steps)
    (ht2 : t2 - t0 < widths.getD k 0)
    (ht3a : widths.getD k 0 ≤ t3 - t0)
    (ht3b : t3 - t0 < widths.getD k 0 + widths.getD ((k + 1) % steps) 0) :
    onClickTriggerList t1 ⟨true, false, some k, t0⟩ =
        ⟨true, true, some k, t0⟩ ∧
    reportedStep steps ⟨true, true, some k, t0⟩ = some k ∧
    updateHeartbeat widths steps 2 t2 ⟨true, true, some k, t0⟩ =
        some ⟨true, true, some k, t0⟩ ∧
    updateHeartbeat widths steps 2 t3 ⟨true, true, some k, t0⟩ =
        some ⟨false, false, some ((k + 1) % steps),
          t0 + widths.getD k 0⟩ ∧
    reportedStep steps
        ⟨false, false, some ((k + 1) % steps), t0 + widths.getD k 0⟩ =
      some k := by
  refine ⟨?_, ?_, ?_, ?_, ?_⟩
  · simp [onClickTriggerList]
  · simp [reportedStep]
  · have hlt : ¬ widths[k]?.getD 0 ≤ t2 - t0 := by
      simpa using not_le.2 ht2
    simp [updateHeartbeat, hlt]
  · have ha : widths[k]?.getD 0 ≤ t3 - t0 := by simpa using ht3a
    have hb : ¬ widths[(k + 1) % steps]?.getD 0 ≤
        t3 - t0 - widths[k]?.getD 0 := by
      have hx : ¬ widths.getD ((k + 1) % steps) 0 ≤
          t3 - t0 - widths.getD k 0 := by omega
      simpa using hx
    simp [updateHeartbeat, lmAdvance, ha, hb]
    omega
  · simp only [reportedStep, reduceIte]
    have hval : Int.emod ((((k + 1) % steps : Nat) : Int) - 1)
        ((steps : Nat) : Int) = (k : Int) := by
      rcases Nat.lt_or_ge (k + 1) steps with hlt | hge
      · rw [Nat.mod_eq_of_lt hlt]
        have h0 : (((k + 1 : Nat)) : Int) - 1 = (k : Int) := by
          push_cast
          ring
        rw [h0]
        exact Int.emod_eq_of_lt (by omega) (by omega)
      · have heq : steps = k + 1 := by omega
        subst heq
        rw [Nat.mod_self]
        have h0 : (((0 : Nat)) : Int) - 1 = (-1 : Int) := by simp
        rw [h0]
        have h2 := @Int.add_mul_emod_self_left (-1) (((k + 1 : Nat)) : Int) 1
        have h3 : (-1 : Int) + (((k + 1 : Nat)) : Int) * 1 =
            (((k + 1 : Nat)) : Int) - 1 := by ring
        rw [h3] at h2
        have h2a : Int.emod ((((k + 1 : Nat)) : Int) - 1)
              (((k + 1 : Nat)) : Int) =
            Int.emod (-1) (((k + 1 : Nat)) : Int) := h2
        rw [← h2a]
        have h4 : (((k + 1 : Nat)) : Int) - 1 = (k : Int) := by
          push_cast
          ring
        rw [h4]
        exact Int.emod_eq_of_lt (by omega) (by omega)
    rw [hval]
    have h5 : (k : Int).toNat = k := by omega
    rw [h5]
    simp

/-- Witness for C7: a 3-step sequence with widths `[5, 7, 9]`, stop
requested during step 1 (width 7, started at `t=100`): the heartbeat at
`t=103` changes nothing, the one at `t=110` pauses at the boundary and
still reports step 1. -/
theorem C7_stop_on_boundary_witness :
    (1 < 3 ∧ ([5, 7, 9] : List Int).length = 3 ∧
      (103 : Int) - 100 < ([5, 7, 9] : List Int).getD 1 0 ∧
      ([5, 7, 9] : List Int).getD 1 0 ≤ (110 : Int) - 100 ∧
      (110 : Int) - 100 < ([5, 7, 9] : List Int).getD 1 0 +
        ([5, 7, 9] : List Int).getD ((1 + 1) % 3) 0) ∧
    (onClickTriggerList 102 ⟨true, false, some 1, 100⟩ =
        ⟨true, true, some 1, 100⟩ ∧
     reportedStep 3 ⟨true, true, some 1, 100⟩ = some 1 ∧
     updateHeartbeat [5, 7, 9] 3 2 103 ⟨true, true, some 1, 100⟩ =
        some ⟨true, true, some 1, 100⟩ ∧
     updateHeartbeat [5, 7, 9] 3 2 110 ⟨true, true, some 1, 100⟩ =
        some ⟨false, false, some ((1 + 1) % 3),
          100 + ([5, 7, 9] : List Int).getD 1 0⟩ ∧
     reportedStep 3
        ⟨false, false, some ((1 + 1) % 3),
          100 + ([5, 7, 9] : List Int).getD 1 0⟩ = some 1) :=
  ⟨⟨by decide, by decide, by decide, by decide, by decide⟩,
   C7_stop_on_boundary [5, 7, 9] 3 1 100 102 103 110 (by decide)
     (by decide) (by decide) (by decide) (by decide)⟩

theorem spdUpdateInstrument_eq (v c : List ℚ)
    (tp : List (List (ℚ × ℚ × ℚ))) (oo : List Bool) :
    spdUpdateInstrument v c tp oo =
      [SPDEv.writeQ "CH1:VOLT" (v.getD 0 0),
       SPDEv.writeQ "CH1:CURR" (v.getD 0 0),
       SPDEv.writeTimer "TIMER:SET CH1,1" ((tp.getD 0 []).getD 0 (0,0,0)).1
         ((tp.getD 0 []).getD 0 (0,0,0)).2.1 ((tp.getD 0 []).getD 0 (0,0,0)).2.2,
       SPDEv.writeTimer "TIMER:SET CH1,2" ((tp.getD 0 []).getD 1 (0,0,0)).1
         ((tp.getD 0 []).getD 1 (0,0,0)).2.1 ((tp.getD 0 []).getD 1 (0,0,0)).2.2,
       SPDEv.writeTimer "TIMER:SET CH1,3" ((tp.getD 0 []).getD 2 (0,0,0)).1
         ((tp.getD 0 []).getD 2 (0,0,0)).2.1 ((tp.getD 0 []).getD 2 (0,0,0)).2.2,
       SPDEv.writeTimer "TIMER:SET CH1,4" ((tp.getD 0 []).getD 3 (0,0,0)).1
         ((tp.getD 0 []).getD 3 (0,0,0)).2.1 ((tp.getD 0 []).getD 3 (0,0,0)).2.2,
       SPDEv.writeTimer "TIMER:SET CH1,5" ((tp.getD 0 []).getD 4 (0,0,0)).1
         ((tp.getD 0 []).getD 4 (0,0,0)).2.1 ((tp.getD 0 []).getD 4 (0,0,0)).2.2,
       SPDEv.writeQ "CH2:VOLT" (v.getD 1 0),
       SPDEv.writeQ "CH2:CURR" (v.getD 1 0),
       SPDEv.writeTimer "TIMER:SET CH2,1" ((tp.getD 1 []).getD 0 (0,0,0)).1
         ((tp.getD 1 []).getD 0 (0,0,0)).2.1 ((tp.getD 1 []).getD 0 (0,0,0)).2.2,
       SPDEv.writeTimer "TIMER:SET CH2,2" ((tp.getD 1 []).getD 1 (0,0,0)).1
         ((tp.getD 1 []).getD 1 (0,0,0)).2.1 ((tp.getD 1 []).getD 1 (0,0,0)).2.2,
       SPDEv.writeTimer "TIMER:SET CH2,3" ((tp.getD 1 []).getD 2 (0,0,0)).1
         ((tp.getD 1 []).getD 2 (0,0,0)).2.1 ((tp.getD 1 []).getD 2 (0,0,0)).2.2,
       SPDEv.writeTimer "TIMER:SET CH2,4" ((tp.getD 1 []).getD 3 (0,0,0)).1
         ((tp.getD 1 []).getD 3 (0,0,0)).2.1 ((tp.getD 1 []).getD 3 (0,0,0)).2.2,
       SPDEv.writeTimer "TIMER:SET CH2,5" ((tp.getD 1 []).getD 4 (0,0,0)).1
         ((tp.getD 1 []).getD 4 (0,0,0)).2.1 ((tp.getD 1 []).getD 4 (0,0,0)).2.2,
       SPDEv.writeOnOff "OUTPUT CH1" (oo.getD 0 false),
       SPDEv.writeOnOff "OUTPUT CH2" (oo.getD 1 false),
       SPDEv.writeOnOff "OUTPUT CH3" (oo.getD 2 false)] := by
  rfl

/-- **C9** (CURR write carries the voltage): for each channel, the
`CH{n}:CURR` write of `update_instrument` is present and its payload is
the channel's voltage setpoint — the unique payload ever written under
that command — so whenever the voltage and current setpoints differ, the
current limit on the wire differs from the canonical current value. -/
theorem C9_curr_writes_voltage (v c : List ℚ)
    (tp : List (List (ℚ × ℚ × ℚ))) (oo : List Bool)
    (ch : Nat) (hch : ch < 2) :
    SPDEv.writeQ ("CH" ++ toString (ch + 1) ++ ":CURR") (v.getD ch 0) ∈
        spdUpdateInstrument v c tp oo ∧
    (∀ q : ℚ, SPDEv.writeQ ("CH" ++ toString (ch + 1) ++ ":CURR") q ∈
        spdUpdateInstrument v c tp oo → q = v.getD ch 0) ∧
    (v.getD ch 0 ≠ c.getD ch 0 →
      ∀ q : ℚ, SPDEv.writeQ ("CH" ++ toString (ch + 1) ++ ":CURR") q ∈
        spdUpdateInstrument v c tp oo → q ≠ c.getD ch 0) := by
  have hch2 : ch = 0 ∨ ch = 1 := by omega
  have huniq : ∀ q : ℚ,
      SPDEv.writeQ ("CH" ++ toString (ch + 1) ++ ":CURR") q ∈
        spdUpdateInstrument v c tp oo → q = v.getD ch 0 := by
    intro q hq
    rw [spdUpdateInstrument_eq] at hq
    rcases hch2 with rfl | rfl <;> simp +decide at hq <;> simpa using hq
  refine ⟨?_, huniq, ?_⟩
  · rw [spdUpdateInstrument_eq]
    rcases hch2 with rfl | rfl <;> simp +decide
  · intro hne q hq
    rw [huniq q hq]
    exact hne

/-- Witness for C9: voltages `[2, 5]`, currents `[3, 6]`, channel 0. -/
theorem C9_curr_writes_voltage_witness :
    (0 : Nat) < 2 ∧
    (SPDEv.writeQ ("CH" ++ toString (0 + 1) ++ ":CURR")
        (([2, 5] : List ℚ).getD 0 0) ∈
        spdUpdateInstrument [2, 5] [3, 6] [] [] ∧
     (∀ q : ℚ, SPDEv.writeQ ("CH" ++ toString (0 + 1) ++ ":CURR") q ∈
        spdUpdateInstrument [2, 5] [3, 6] [] [] →
        q = ([2, 5] : List ℚ).getD 0 0) ∧
     (([2, 5] : List ℚ).getD 0 0 ≠ ([3, 6] : List ℚ).getD 0 0 →
      ∀ q : ℚ, SPDEv.writeQ ("CH" ++ toString (0 + 1) ++ ":CURR") q ∈
        spdUpdateInstrument [2, 5] [3, 6] [] [] →
        q ≠ ([3, 6] : List ℚ).getD 0 0)) :=
  ⟨by decide, C9_curr_writes_voltage [2, 5] [3, 6] [] [] 0 (by decide)⟩

/-- **C10** (SDL boolean formatting is constant): the SDL1000
`_update_one_param_on_inst` boolean branch tests the constant `True`, so
every boolean value — `False` included — goes out as `'{key} 1'`; the
SDM3000 variant tests the value and formats `False` as `'0'`. -/
theorem C10_sdl_bool_always_one (key : String) (b : Bool) :
    sdlUpdateOneParamEv key (.b b) = .write key (.fstr "1") ∧
    sdlUpdateOneParamEv key (.b false) = .write key (.fstr "1") ∧
    sdmUpdateOneParamEv key (.b false) = .write key (.fstr "0") ∧
    sdmUpdateOneParamEv key (.b true) = .write key (.fstr "1") := by
  refine ⟨?_, rfl, rfl, rfl⟩
  cases b <;> rfl

/-- **C8** (code bug in `Device.read`): on a connected, non-fake, open
conductor device, `read()` does not return the stripped line: its body
calls `self._read_no_lock()`, a name absent from the class (the method is
spelled `read_no_lock`), so the attribute lookup raises `AttributeError`;
`read_no_lock` itself does return the line with trailing whitespace and
terminators stripped. -/
theorem C8_read_attribute_error :
    conductorDeviceRead ⟨true, false, false⟩ (.ok "DATA\r\n") =
        .error .attributeError ∧
    conductorReadNoLock ⟨true, false, false⟩ (.ok "DATA\r\n") =
        .ok "DATA" ∧
    "_read_no_lock" ∉ conductorDeviceMethods ∧
    "read_no_lock" ∈ conductorDeviceMethods := by
  refine ⟨rfl, rfl, by decide, by decide⟩

end InstConductor

